import Mathlib

/-!
map1Server: presence and broadcast coordinator

A shallow embedding of the Socket.IO part of `src/server.js` together with the
parts of `src/database.js` its handlers call, and of the attachment helpers of
`src/utils/fileUpload.js` with the way the marker routes use them.

* JavaScript `Map` objects are association lists in insertion order.
* Every handler is a pure function from the server state, the socket object the
  handler closes over, the message payload and the outcome of the environment
  (clock reading, SQLite exceptions) to the new state, the new socket object and
  the list of messages emitted, in emission order.
* The event loop `step` runs every handler to completion before the next event.
  The registration handler can also be run in its two parts, `iniciarRegistro`
  up to `await io.fetchSockets()` and `reanudarRegistro` after it, to follow
  runs that overlap at that suspension point.
* Sequence numbers are integers; the one addition the code performs on them is
  the JavaScript addition on doubles, `jsSuma`.
* Coordinates, speed and accuracy are JavaScript numbers that the handlers only
  test for truthiness and copy; they are integers here.
* The table of markers and the REST routes are outside the model: the payload of
  'marcadores:iniciales' and of the events the routes pass to `emitToOthers` is
  left abstract.
-/

namespace Map1Server

/-! ## JavaScript `Map` -/

/-- A JavaScript `Map`: entries in insertion order. -/
abbrev JsMap (κ ν : Type) := List (κ × ν)

namespace JsMap

variable {κ ν : Type} [DecidableEq κ]

/-- The method `Map.prototype.get`. -/
def get (m : JsMap κ ν) (k : κ) : Option ν :=
  match m with
  | [] => none
  | (k1, v) :: rest => if k1 = k then some v else get rest k

/-- The method `Map.prototype.has`. -/
def has (m : JsMap κ ν) (k : κ) : Bool :=
  (get m k).isSome

/-- The method `Map.prototype.set`: an existing key keeps its position, a new
key goes to the end. -/
def set (m : JsMap κ ν) (k : κ) (v : ν) : JsMap κ ν :=
  match m with
  | [] => [(k, v)]
  | (k1, v1) :: rest => if k1 = k then (k, v) :: rest else (k1, v1) :: set rest k v

/-- The method `Map.prototype.delete`. -/
def delete (m : JsMap κ ν) (k : κ) : JsMap κ ν :=
  m.filter (fun e => e.1 ≠ k)

/-- The property `Map.prototype.size`. -/
def size (m : JsMap κ ν) : Nat := m.length

end JsMap

/-! ## JavaScript truthiness of the values the handlers test -/

/-- The expression `s || null` on a string-or-undefined value: the empty string
and a missing value are falsy. -/
def strOrNull (s : Option String) : Option String :=
  match s with
  | some v => if v = "" then none else some v
  | none => none

/-- The expression `s || d` on a string-or-undefined value. -/
def strOr (s : Option String) (d : String) : String :=
  match strOrNull s with
  | some v => v
  | none => d

/-- The expression `n || null` on a number-or-undefined value: zero and a
missing value are falsy. -/
def numOrNull (n : Option Int) : Option Int :=
  match n with
  | some v => if v = 0 then none else some v
  | none => none

/-- The expression `n || d` on a number-or-undefined value. -/
def numOr (n : Option Int) (d : Int) : Int :=
  match numOrNull n with
  | some v => v
  | none => d

/-! ## The Store (`src/database.js`) -/

/-- A row of table `usuarios`. The two DATETIME columns hold clock readings. -/
structure UsuarioRow where
  id : String
  num_usuario : Option Int
  nombre : Option String
  plataforma : Option String
  modelo_dispositivo : Option String
  fecha_registro : Nat
  ultima_conexion : Nat
  deriving DecidableEq, Repr

/-- A row of table `coordenadas_gps`. -/
structure CoordenadaRow where
  id : Nat
  user_id : Option String
  lat : Int
  lng : Int
  accuracy : Option Int
  timestamp : Nat
  deriving DecidableEq, Repr

/-- The SQLite database: the two tables the socket handlers touch and the
AUTOINCREMENT counter of `coordenadas_gps`. -/
structure Db where
  usuarios : List UsuarioRow
  coordenadas_gps : List CoordenadaRow
  seq_coordenadas : Nat
  deriving DecidableEq, Repr

/-- The argument object of `registrarOActualizarUsuario`. -/
structure UserData where
  id : String
  nombre : Option String
  plataforma : Option String
  modeloDispositivo : Option String
  deriving DecidableEq, Repr

/-- The object `registrarOActualizarUsuario` returns: the row spread plus the
flag `actualizado`. -/
structure UsuarioResult where
  row : UsuarioRow
  actualizado : Bool
  deriving DecidableEq, Repr

/-- The query `SELECT * FROM usuarios WHERE id = ?` read with `.get`. -/
def selectUsuario (db : Db) (id : String) : Option UsuarioRow :=
  db.usuarios.find? (fun r => r.id = id)

/-- The query `SELECT MAX(num_usuario) as max_num FROM usuarios`: NULL when no
row has a number. -/
def maxNumUsuario (db : Db) : Option Int :=
  (db.usuarios.filterMap (fun r => r.num_usuario)).foldl
    (fun acc n => match acc with
      | none => some n
      | some a => some (max a n)) none

/-- The SQL function `COALESCE(x, y)`. -/
def coalesce (x y : Option String) : Option String :=
  match x with
  | some v => some v
  | none => y

/-- How many low bits a natural number loses when it is held in an IEEE double,
which keeps 53 significant bits; `fuel` bounds the search. -/
def bitsPerdidos : Nat → Nat → Nat
  | 0, _ => 0
  | fuel + 1, a => if a < 2 ^ 53 then 0 else bitsPerdidos fuel (a / 2) + 1

/-- The natural number an IEEE double holds for `a`: the nearest one with 53
significant bits, ties going to the even significand. -/
def redondearDoble (a : Nat) : Nat :=
  let e := bitsPerdidos 1024 a
  let q := a / 2 ^ e
  let r := a % 2 ^ e
  if 2 * r < 2 ^ e then q * 2 ^ e
  else if 2 * r = 2 ^ e then (if q % 2 = 0 then q else q + 1) * 2 ^ e
  else (q + 1) * 2 ^ e

/-- The integer a JavaScript number holds for the integer `n`. -/
def aDoble (n : Int) : Int :=
  if 0 ≤ n then (redondearDoble n.toNat : Int) else -(redondearDoble (-n).toNat : Int)

/-- The JavaScript `a + b` on two integer-valued numbers: the exact sum, rounded
to the nearest double. It is exact while the sum stays below 2^53 in
magnitude. -/
def jsSuma (a b : Int) : Int :=
  aDoble (a + b)

/-- The function `registrarOActualizarUsuario` of `database.js`. `now` is the
value of `datetime('now')`; `err` is the message of the exception the SQLite
driver throws, if it throws, in which case the tables are left as they were. -/
def registrarOActualizarUsuario (db : Db) (userData : UserData) (now : Nat)
    (err : Option String) : Except String (Db × UsuarioResult) :=
  match err with
  | some msg => .error msg
  | none =>
    match selectUsuario db userData.id with
    | some existe =>
      let usuarios := db.usuarios.map (fun r =>
        if r.id = userData.id then
          { r with
            ultima_conexion := now
            nombre := coalesce (strOrNull userData.nombre) r.nombre
            plataforma := coalesce (strOrNull userData.plataforma) r.plataforma
            modelo_dispositivo :=
              coalesce (strOrNull userData.modeloDispositivo) r.modelo_dispositivo }
        else r)
      .ok ({ db with usuarios := usuarios }, { row := existe, actualizado := true })
    | none =>
      let nextNum : Int :=
        match numOrNull (maxNumUsuario db) with
        | some m => jsSuma m 1
        | none => 1
      let nuevo : UsuarioRow :=
        { id := userData.id
          num_usuario := some nextNum
          nombre := strOrNull userData.nombre
          plataforma := strOrNull userData.plataforma
          modelo_dispositivo := strOrNull userData.modeloDispositivo
          fecha_registro := now
          ultima_conexion := now }
      .ok ({ db with usuarios := db.usuarios ++ [nuevo] },
           { row := nuevo, actualizado := false })

/-- The function `getUsuarioById` of `database.js`; `err` as above. -/
def getUsuarioById (db : Db) (id : String) (err : Option String) :
    Except String (Option UsuarioRow) :=
  match err with
  | some msg => .error msg
  | none => .ok (selectUsuario db id)

/-- The argument object of `saveCoordenadaGPS`. -/
structure CoordenadaData where
  user_id : Option String
  lat : Int
  lng : Int
  accuracy : Option Int
  timestamp : Nat
  deriving DecidableEq, Repr

/-- The function `saveCoordenadaGPS` of `database.js`: inserts a row and returns
`lastInsertRowid`. With `foreign_keys = ON` the insert throws when `user_id` is
not NULL and names no row of `usuarios`; `err` as above. -/
def saveCoordenadaGPS (db : Db) (c : CoordenadaData) (err : Option String) :
    Except String (Db × Nat) :=
  match err with
  | some msg => .error msg
  | none =>
    let user_id := strOrNull c.user_id
    let fkOk : Bool :=
      match user_id with
      | none => true
      | some u => (selectUsuario db u).isSome
    if fkOk then
      let rowid := db.seq_coordenadas + 1
      let row : CoordenadaRow :=
        { id := rowid, user_id := user_id, lat := c.lat, lng := c.lng
          accuracy := numOrNull c.accuracy, timestamp := c.timestamp }
      .ok ({ db with coordenadas_gps := db.coordenadas_gps ++ [row]
                     seq_coordenadas := rowid }, rowid)
    else
      .error "FOREIGN KEY constraint failed"

/-! ## Sockets, messages and server state (`src/server.js`) -/

/-- The object stored in `socket.userInfo` on a successful registration. -/
structure UserInfo where
  numUsuario : Option Int
  nombre : Option String
  plataforma : String
  deriving DecidableEq, Repr

/-- A Socket.IO socket object: its id (socket ids are unique non-empty handles,
numbered here in order of connection) and the two properties the handlers
attach to it, both undefined until a registration sets them. -/
structure Socket where
  id : Nat
  userId : Option String
  userInfo : Option UserInfo
  deriving DecidableEq, Repr

/-- A value of the map `ultimasUbicaciones`. -/
structure Ubicacion where
  lat : Int
  lng : Int
  speed : Int
  timestamp : Nat
  deriving DecidableEq, Repr

/-- An element of the array sent as 'ubicaciones-usuarios-conectados'. -/
structure UbicacionMsg where
  userId : String
  lat : Int
  lng : Int
  speed : Int
  timestamp : Nat
  deriving DecidableEq, Repr

/-- The payloads of the events the server emits. -/
inductive Payload where
  | marcadoresIniciales
  | clienteConectado (userId : String) (numUsuario : Option Int)
      (nombre : Option String) (plataforma : String) (timestamp : Nat)
  | clienteDesconectado (userId : String) (numUsuario : Option Int)
      (nombre : Option String) (plataforma : String) (timestamp : Nat)
  | usuarioRegistrado (success : Bool) (userId : Option String)
      (usuario : Option UsuarioRow) (error : Option String)
  | ubicacionesUsuariosConectados (ubicaciones : List UbicacionMsg)
  | coordenadaNueva (id : Nat) (lat lng : Int) (accuracy : Option Int)
      (user_id : Option String) (numUsuario : Option Int)
      (plataforma : Option String) (timestamp : Nat)
  | ubicacionUsuario (userId : String) (lat lng speed : Int) (timestamp : Nat)
  | otro (cuerpo : String)
  deriving DecidableEq, Repr

/-- Whom an emit call addresses. -/
inductive Destino where
  /-- The call `socket.emit` on the socket with this id. -/
  | socket (sid : Nat)
  /-- The call `socket.broadcast.emit` on the socket with this id. -/
  | broadcast (sid : Nat)
  /-- The call `io.emit`. -/
  | todos
  deriving DecidableEq, Repr

/-- One emit call: event `event` with payload `data` addressed to `destino`. -/
structure Emit where
  destino : Destino
  event : String
  data : Payload
  deriving DecidableEq, Repr

/-- Whether an emit call addressed to `d` reaches the open connection `sid`:
the socket itself, every socket but the sender, or every socket. -/
def Destino.alcanza (d : Destino) (sid : Nat) : Bool :=
  match d with
  | .socket t => sid = t
  | .broadcast t => sid ≠ t
  | .todos => true

/-- The ids of the connections an emit call addressed to `d` reaches when
`sockets` are the open sockets of the namespace. -/
def receptores (sockets : List Socket) (d : Destino) : List Nat :=
  (sockets.map (fun s => s.id)).filter d.alcanza

/-- How many times the connection `sid` is handed event `event` with payload
`data` by the emit calls `out`. -/
def entregas (sockets : List Socket) (out : List Emit) (sid : Nat) (event : String)
    (data : Payload) : Nat :=
  ((out.filter (fun e => e.event = event ∧ e.data = data)).map
    (fun e => (receptores sockets e.destino).count sid)).sum

/-- The server state: the open sockets of the namespace, the three module-level
maps of `server.js`, and the database. -/
structure State where
  sockets : List Socket
  nextSocketId : Nat
  userSocketMap : JsMap String Nat
  usuariosNotificados : JsMap String Bool
  ultimasUbicaciones : JsMap String Ubicacion
  db : Db
  deriving DecidableEq, Repr

/-- The state at process start: no connection, empty maps. -/
def State.inicial (db : Db) : State :=
  { sockets := [], nextSocketId := 1, userSocketMap := [], usuariosNotificados := []
    ultimasUbicaciones := [], db := db }

/-- What the environment decides during one handler run: the clock reading and,
for each Store call, the message of the exception it throws, if any. -/
structure Entorno where
  now : Nat
  errRegistrar : Option String
  errGetUsuario : Option String
  errSave : Option String
  deriving DecidableEq, Repr

/-- An environment in which no Store call throws. -/
def Entorno.sinErrores (now : Nat) : Entorno :=
  { now := now, errRegistrar := none, errGetUsuario := none, errSave := none }

/-- What a handler run produces. -/
structure Resultado where
  st : State
  socket : Socket
  out : List Emit
  deriving DecidableEq, Repr

/-- The call `io.fetchSockets()`: the in-memory adapter resolves with the open
sockets of the namespace. -/
def fetchSockets (st : State) : Except String (List Socket) :=
  .ok st.sockets

/-- The call `socket.emit(event, data)`. -/
def socketEmit (socket : Socket) (event : String) (data : Payload) : List Emit :=
  [{ destino := .socket socket.id, event := event, data := data }]

/-- The call `socket.broadcast.emit(event, data)`. -/
def broadcastEmit (socket : Socket) (event : String) (data : Payload) : List Emit :=
  [{ destino := .broadcast socket.id, event := event, data := data }]

/-- The call `io.emit(event, data)`. -/
def ioEmit (event : String) (data : Payload) : List Emit :=
  [{ destino := .todos, event := event, data := data }]

/-- The helper `emitToOthers(userId, event, data)` of `server.js`. The result is
`.error` when the promise rejects. -/
def emitToOthers (st : State) (userId : Option String) (event : String) (data : Payload) :
    Except String (List Emit) :=
  match strOrNull userId with
  | none => .ok (ioEmit event data)
  | some u =>
    match fetchSockets st with
    | .error msg => .error msg
    | .ok sockets =>
      .ok (sockets.flatMap (fun socket =>
        if socket.userId ≠ some u then socketEmit socket event data else []))

/-- The payload of 'usuario-conectado'. -/
structure RegistroData where
  id : Option String
  nombre : Option String
  plataforma : Option String
  modeloDispositivo : Option String
  deriving DecidableEq, Repr

/-- The array built from `ultimasUbicaciones.entries()` in the registration
handler. -/
def ubicacionesExistentes (m : JsMap String Ubicacion) (now : Nat) : List UbicacionMsg :=
  m.map (fun e =>
    { userId := e.1, lat := e.2.lat, lng := e.2.lng
      speed := numOr (some e.2.speed) 0
      timestamp := if e.2.timestamp = 0 then now else e.2.timestamp })

/-- The reconnection check at the head of the registration handler: whether the
socket on record for `id` is still open (`yaEstabaConectado`), and the state
after the clean-up of a record whose socket is gone. -/
def verificarConexionAnterior (st : State) (id : String) : State × Bool :=
  match st.userSocketMap.get id with
  | none => (st, false)
  | some socketIdAnterior =>
    match fetchSockets st with
    | .ok sockets =>
      match sockets.find? (fun s => s.id = socketIdAnterior) with
      | some _ => (st, true)
      | none =>
        ({ st with
            userSocketMap := st.userSocketMap.delete id
            usuariosNotificados := st.usuariosNotificados.delete id }, false)
    | .error _ => (st, false)

/-- The handler `socket.on('usuario-conectado', ...)`. -/
def onUsuarioConectado (st : State) (socket : Socket) (data : RegistroData)
    (env : Entorno) : Resultado :=
  match strOrNull data.id with
  | none => { st := st, socket := socket, out := [] }
  | some id =>
    let st1 := (verificarConexionAnterior st id).1
    let yaEstabaConectado := (verificarConexionAnterior st id).2
    let socket1 : Socket := { socket with userId := some id }
    match registrarOActualizarUsuario st1.db
        { id := id
          nombre := strOrNull data.nombre
          plataforma := some (strOr data.plataforma "web")
          modeloDispositivo := strOrNull data.modeloDispositivo }
        env.now env.errRegistrar with
    | .error msg =>
      { st := st1, socket := socket1
        out := socketEmit socket1 "usuario-registrado"
          (.usuarioRegistrado false none none (some msg)) }
    | .ok (db2, usuario) =>
      let socket2 : Socket :=
        { socket1 with
          userInfo := some
            { numUsuario := numOrNull usuario.row.num_usuario
              nombre := strOrNull usuario.row.nombre
              plataforma := strOr usuario.row.plataforma "web" } }
      let st2 : State :=
        { st1 with db := db2, userSocketMap := st1.userSocketMap.set id socket.id }
      let st3 : State :=
        if yaEstabaConectado then st2
        else { st2 with usuariosNotificados := st2.usuariosNotificados.set id true }
      let out1 : List Emit :=
        if yaEstabaConectado then []
        else broadcastEmit socket2 "cliente-conectado"
          (.clienteConectado id (numOrNull usuario.row.num_usuario)
            (strOrNull data.nombre) (strOr data.plataforma "web") env.now)
      match getUsuarioById st3.db id env.errGetUsuario with
      | .error msg =>
        { st := st3, socket := socket2
          out := out1 ++ socketEmit socket2 "usuario-registrado"
            (.usuarioRegistrado false none none (some msg)) }
      | .ok fila =>
        let out2 := out1 ++ socketEmit socket2 "usuario-registrado"
          (.usuarioRegistrado true (some id) fila none)
        let out3 :=
          if st3.ultimasUbicaciones.size > 0 then
            out2 ++ socketEmit socket2 "ubicaciones-usuarios-conectados"
              (.ubicacionesUsuariosConectados
                (ubicacionesExistentes st3.ultimasUbicaciones env.now))
          else out2
        { st := st3, socket := socket2, out := out3 }

/-- What a run of the registration handler holds while it is suspended at
`await io.fetchSockets()`: the message, its user id and the socket id it has
read from `userSocketMap` before suspending. -/
structure RegistroSuspendido where
  data : RegistroData
  id : String
  socketIdAnterior : Nat
  deriving DecidableEq, Repr

/-- The registration handler from `socket.userId = id` to its end (the part
after the reconnection check), given the state the check left and the value of
`yaEstabaConectado`. -/
def completarRegistro (st1 : State) (socket : Socket) (data : RegistroData)
    (env : Entorno) (id : String) (yaEstabaConectado : Bool) : Resultado :=
  let socket1 : Socket := { socket with userId := some id }
  match registrarOActualizarUsuario st1.db
      { id := id
        nombre := strOrNull data.nombre
        plataforma := some (strOr data.plataforma "web")
        modeloDispositivo := strOrNull data.modeloDispositivo }
      env.now env.errRegistrar with
  | .error msg =>
    { st := st1, socket := socket1
      out := socketEmit socket1 "usuario-registrado"
        (.usuarioRegistrado false none none (some msg)) }
  | .ok (db2, usuario) =>
    let socket2 : Socket :=
      { socket1 with
        userInfo := some
          { numUsuario := numOrNull usuario.row.num_usuario
            nombre := strOrNull usuario.row.nombre
            plataforma := strOr usuario.row.plataforma "web" } }
    let st2 : State :=
      { st1 with db := db2, userSocketMap := st1.userSocketMap.set id socket.id }
    let st3 : State :=
      if yaEstabaConectado then st2
      else { st2 with usuariosNotificados := st2.usuariosNotificados.set id true }
    let out1 : List Emit :=
      if yaEstabaConectado then []
      else broadcastEmit socket2 "cliente-conectado"
        (.clienteConectado id (numOrNull usuario.row.num_usuario)
          (strOrNull data.nombre) (strOr data.plataforma "web") env.now)
    match getUsuarioById st3.db id env.errGetUsuario with
    | .error msg =>
      { st := st3, socket := socket2
        out := out1 ++ socketEmit socket2 "usuario-registrado"
          (.usuarioRegistrado false none none (some msg)) }
    | .ok fila =>
      let out2 := out1 ++ socketEmit socket2 "usuario-registrado"
        (.usuarioRegistrado true (some id) fila none)
      let out3 :=
        if st3.ultimasUbicaciones.size > 0 then
          out2 ++ socketEmit socket2 "ubicaciones-usuarios-conectados"
            (.ubicacionesUsuariosConectados
              (ubicacionesExistentes st3.ultimasUbicaciones env.now))
        else out2
      { st := st3, socket := socket2, out := out3 }

/-- How far a run of the registration handler gets before it returns control to
the event loop: to its end, or to `await io.fetchSockets()`. -/
inductive Avance where
  | terminado (r : Resultado)
  | suspendido (p : RegistroSuspendido)
  deriving DecidableEq, Repr

/-- The registration handler up to its first suspension. It finishes at once
when the message has no id or `userSocketMap` has no entry for the id; otherwise
it suspends, having changed nothing. -/
def iniciarRegistro (st : State) (socket : Socket) (data : RegistroData)
    (env : Entorno) : Avance :=
  match strOrNull data.id with
  | none => .terminado { st := st, socket := socket, out := [] }
  | some id =>
    match st.userSocketMap.get id with
    | none => .terminado (completarRegistro st socket data env id false)
    | some socketIdAnterior =>
      .suspendido { data := data, id := id, socketIdAnterior := socketIdAnterior }

/-- The registration handler resumed after `await io.fetchSockets()`, on the
state and the socket object of the moment it resumes. -/
def reanudarRegistro (st : State) (socket : Socket) (p : RegistroSuspendido)
    (env : Entorno) : Resultado :=
  match fetchSockets st with
  | .ok sockets =>
    match sockets.find? (fun s => s.id = p.socketIdAnterior) with
    | some _ => completarRegistro st socket p.data env p.id true
    | none =>
      completarRegistro
        { st with
          userSocketMap := st.userSocketMap.delete p.id
          usuariosNotificados := st.usuariosNotificados.delete p.id }
        socket p.data env p.id false
  | .error _ => completarRegistro st socket p.data env p.id false

/-- The payload of 'coordenada:actualizar'. -/
structure CoordenadaMsg where
  lat : Option Int
  lng : Option Int
  accuracy : Option Int
  userId : Option String
  deriving DecidableEq, Repr

/-- The expression `userId || socket.userId || null`. -/
def resolverUserId (userId : Option String) (socket : Socket) : Option String :=
  match strOrNull userId with
  | some u => some u
  | none => strOrNull socket.userId

/-- The handler `socket.on('coordenada:actualizar', ...)`. -/
def onCoordenadaActualizar (st : State) (socket : Socket) (data : CoordenadaMsg)
    (env : Entorno) : Resultado :=
  match numOrNull data.lat, numOrNull data.lng with
  | some lat, some lng =>
    let user_id := resolverUserId data.userId socket
    match saveCoordenadaGPS st.db
        { user_id := user_id, lat := lat, lng := lng, accuracy := data.accuracy
          timestamp := env.now } env.errSave with
    | .error _ => { st := st, socket := socket, out := [] }
    | .ok (db2, id) =>
      let st1 : State := { st with db := db2 }
      let usuarioInfo : Option UsuarioRow :=
        match user_id with
        | none => none
        | some u =>
          match getUsuarioById st1.db u env.errGetUsuario with
          | .ok fila => fila
          | .error _ => none
      { st := st1, socket := socket
        out := broadcastEmit socket "coordenada:nueva"
          (.coordenadaNueva id lat lng data.accuracy user_id
            (numOrNull (usuarioInfo.bind (fun u => u.num_usuario)))
            (strOrNull (usuarioInfo.bind (fun u => u.plataforma)))
            env.now) }
  | _, _ => { st := st, socket := socket, out := [] }

/-- The payload of 'ubicacion-actual'. -/
structure UbicacionData where
  userId : Option String
  lat : Option Int
  lng : Option Int
  speed : Option Int
  accuracy : Option Int
  timestamp : Option Nat
  deriving DecidableEq, Repr

/-- The expression `timestamp || Date.now()`. -/
def timestampOr (timestamp : Option Nat) (now : Nat) : Nat :=
  match timestamp with
  | some t => if t = 0 then now else t
  | none => now

/-- The handler `socket.on('ubicacion-actual', ...)`. -/
def onUbicacionActual (st : State) (socket : Socket) (data : UbicacionData)
    (env : Entorno) : Resultado :=
  match numOrNull data.lat, numOrNull data.lng with
  | some lat, some lng =>
    match resolverUserId data.userId socket with
    | none => { st := st, socket := socket, out := [] }
    | some user_id =>
      let db1 : Db :=
        match saveCoordenadaGPS st.db
            { user_id := some user_id, lat := lat, lng := lng
              accuracy := numOrNull data.accuracy, timestamp := env.now } env.errSave with
        | .ok (db2, _) => db2
        | .error _ => st.db
      let st1 : State :=
        { st with
          db := db1
          ultimasUbicaciones := st.ultimasUbicaciones.set user_id
            { lat := lat, lng := lng, speed := numOr data.speed 0
              timestamp := timestampOr data.timestamp env.now } }
      { st := st1, socket := socket
        out := broadcastEmit socket "ubicacion-usuario"
          (.ubicacionUsuario user_id lat lng (numOr data.speed 0)
            (timestampOr data.timestamp env.now)) }
  | _, _ => { st := st, socket := socket, out := [] }

/-- The handler `socket.on('disconnect', ...)`. `now` is the clock reading. -/
def onDisconnect (st : State) (socket : Socket) (now : Nat) : Resultado :=
  match strOrNull socket.userId with
  | none => { st := st, socket := socket, out := [] }
  | some userId =>
    let socketActual := st.userSocketMap.get userId
    if socketActual = some socket.id then
      let st1 : State :=
        { st with
          userSocketMap := st.userSocketMap.delete userId
          usuariosNotificados := st.usuariosNotificados.delete userId
          ultimasUbicaciones := st.ultimasUbicaciones.delete userId }
      match socket.userInfo with
      | some userInfo =>
        if (numOrNull userInfo.numUsuario).isSome ∨ userInfo.plataforma ≠ "" then
          { st := st1, socket := socket
            out := broadcastEmit socket "cliente-desconectado"
              (.clienteDesconectado userId (numOrNull userInfo.numUsuario)
                (strOrNull userInfo.nombre) (strOr (some userInfo.plataforma) "web") now) }
        else { st := st1, socket := socket, out := [] }
      | none => { st := st1, socket := socket, out := [] }
    else { st := st, socket := socket, out := [] }

/-! ## The event loop -/

/-- What can happen to the server: a client connects, an open connection sends
one of the three messages, or an open connection closes. -/
inductive Evento where
  | connection
  | usuarioConectado (sid : Nat) (data : RegistroData) (env : Entorno)
  | coordenadaActualizar (sid : Nat) (data : CoordenadaMsg) (env : Entorno)
  | ubicacionActual (sid : Nat) (data : UbicacionData) (env : Entorno)
  | disconnect (sid : Nat) (now : Nat)
  deriving DecidableEq, Repr

/-- The open socket with id `sid`. -/
def buscarSocket (st : State) (sid : Nat) : Option Socket :=
  st.sockets.find? (fun s => s.id = sid)

/-- Stores the socket object a handler run has mutated back among the open
sockets. -/
def guardarSocket (r : Resultado) : State × List Emit :=
  let st := r.st
  let sockets := st.sockets.map (fun s => if s.id = r.socket.id then r.socket else s)
  ({ st with sockets := sockets }, r.out)

/-- One turn of the event loop. A message for a connection that is not open
runs no handler. -/
def step (st : State) (ev : Evento) : State × List Emit :=
  match ev with
  | .connection =>
    let socket : Socket := { id := st.nextSocketId, userId := none, userInfo := none }
    ({ st with sockets := st.sockets ++ [socket], nextSocketId := st.nextSocketId + 1 },
      socketEmit socket "marcadores:iniciales" .marcadoresIniciales)
  | .usuarioConectado sid data env =>
    match buscarSocket st sid with
    | some socket => guardarSocket (onUsuarioConectado st socket data env)
    | none => (st, [])
  | .coordenadaActualizar sid data env =>
    match buscarSocket st sid with
    | some socket => guardarSocket (onCoordenadaActualizar st socket data env)
    | none => (st, [])
  | .ubicacionActual sid data env =>
    match buscarSocket st sid with
    | some socket => guardarSocket (onUbicacionActual st socket data env)
    | none => (st, [])
  | .disconnect sid now =>
    match buscarSocket st sid with
    | some socket =>
      let st1 : State := { st with sockets := st.sockets.filter (fun s => s.id ≠ sid) }
      let r := onDisconnect st1 socket now
      (r.st, r.out)
    | none => (st, [])

/-- Runs a sequence of events from `st`, collecting the emitted messages. -/
def run (st : State) (evs : List Evento) : State × List Emit :=
  match evs with
  | [] => (st, [])
  | ev :: rest =>
    let r := step st ev
    let r2 := run r.1 rest
    (r2.1, r.2 ++ r2.2)

/-- The states the server can be in: those the event loop reaches from process
start. -/
inductive Reachable (db : Db) : State → Prop where
  | inicial : Reachable db (State.inicial db)
  | paso (st : State) (ev : Evento) : Reachable db st → Reachable db (step st ev).1

/-! ## Attachments (`src/utils/fileUpload.js` and the marker routes) -/

/-- The method `String.prototype.startsWith`. -/
def jsStartsWith (s pre : String) : Bool :=
  pre.data.isPrefixOf s.data

/-- The method `String.prototype.includes`. -/
def jsIncludes (s sub : String) : Bool :=
  decide (sub.data <:+: s.data)

/-- The helper `getFileFolder(mimetype)` of `server.js`; `mimetype?.startsWith`
is undefined, hence falsy, on a missing MIME type. -/
def getFileFolder (mimetype : Option String) : String :=
  if (mimetype.map (fun m => jsStartsWith m "image/")).getD false then "imagenes"
  else if (mimetype.map (fun m => jsStartsWith m "video/")).getD false then "videos"
  else "documentos"

/-- The folder the `destination` callback of the multer storage in
`fileUpload.js` chooses for a MIME type; the callback passes
`join(STORAGE_BASE, folder)` on. -/
def storageDestinationFolder (mimeType : String) : String :=
  let folder := "documentos"
  if jsStartsWith mimeType "image/" then "imagenes"
  else if jsStartsWith mimeType "video/" then "videos"
  else if jsIncludes mimeType "pdf" || jsIncludes mimeType "document" then "documentos"
  else folder

/-- The function `getFileUrl(filename, folder = 'documentos')` of
`fileUpload.js`. -/
def getFileUrl (filename : Option String) (folder : Option String) : Option String :=
  match strOrNull filename with
  | none => none
  | some f => some ("/api/files/" ++ folder.getD "documentos" ++ "/" ++ f)

/-- Splitting a sequence of characters at every occurrence of `sep`. -/
def splitChars (sep : Char) : List Char → List (List Char)
  | [] => [[]]
  | c :: cs =>
    if c = sep then [] :: splitChars sep cs
    else
      match splitChars sep cs with
      | [] => [[c]]
      | p :: ps => (c :: p) :: ps

/-- The method `String.prototype.split` with a one-character separator. -/
def jsSplit (s : String) (sep : Char) : List String :=
  (splitChars sep s.data).map String.mk

/-- Array indexing `a[i]`: undefined outside the array, in particular at a
negative index. -/
def jsAt (a : List String) (i : Int) : Option String :=
  if i < 0 then none else a[i.toNat]?

/-- What the marker update and delete routes read off a stored URL before they
call `deleteFile`: `urlParts[urlParts.length - 1]` as file name and
`urlParts[urlParts.length - 2]` as folder. -/
def archivoPartes (archivo : String) : Option String × Option String :=
  let urlParts := jsSplit archivo '/'
  (jsAt urlParts ((urlParts.length : Int) - 1), jsAt urlParts ((urlParts.length : Int) - 2))

/-! ## Vocabulary of the join claims -/

/-- The registry binds `id` to a connection that is still open. -/
def ligadoAbierto (st : State) (id : String) : Bool :=
  match st.userSocketMap.get id with
  | some a => decide (a ∈ st.sockets.map (fun s => s.id))
  | none => false

/-- The event closes the connection the registry binds `id` to. -/
def cierraLigado (st : State) (id : String) (ev : Evento) : Bool :=
  match ev with
  | .disconnect sid _ => decide (st.userSocketMap.get id = some sid)
  | _ => false

/-- No event of the run closes the connection the registry binds `id` to at the
moment the event happens. -/
def sinCierre (id : String) (st : State) (evs : List Evento) : Bool :=
  match evs with
  | [] => true
  | ev :: rest => !cierraLigado st id ev && sinCierre id (step st ev).1 rest

/-- The emit call is a 'cliente-conectado' (peer-joined) for user `id`. -/
def esJoinDe (id : String) (e : Emit) : Bool :=
  match e.data with
  | .clienteConectado u _ _ _ _ => decide (e.event = "cliente-conectado") && decide (u = id)
  | _ => false

/-! ## Invariant of the reachable states -/

/-- A socket object on which a registration has stored `socket.userInfo`; the
stored `plataforma` is never empty because it is `usuario.plataforma || 'web'`. -/
def Socket.registrado (s : Socket) : Prop :=
  ∃ ui, s.userInfo = some ui ∧ ui.plataforma ≠ ""

/-- What holds in every reachable state: open sockets have distinct ids below
the next id to hand out, the registry only names ids already handed out, its
keys are non-empty, and an open socket the registry points to has completed a
registration. -/
structure Inv (st : State) : Prop where
  nodup : (st.sockets.map (fun s => s.id)).Nodup
  ids_lt : ∀ s ∈ st.sockets, s.id < st.nextSocketId
  bind_lt : ∀ id sid, st.userSocketMap.get id = some sid → sid < st.nextSocketId
  keys_ne : ∀ id sid, st.userSocketMap.get id = some sid → id ≠ ""
  info : ∀ s ∈ st.sockets, ∀ id, st.userSocketMap.get id = some s.id → s.registrado

/-! ## Concrete inputs used below -/

namespace Ejemplo

/-- An empty database. -/
def db0 : Db := { usuarios := [], coordenadas_gps := [], seq_coordenadas := 0 }

/-- A registration message for user "A" with no optional field. -/
def regA : RegistroData :=
  { id := some "A", nombre := none, plataforma := none, modeloDispositivo := none }

/-- A registration message for user "B". -/
def regB : RegistroData :=
  { id := some "B", nombre := some "Bea", plataforma := some "android"
    modeloDispositivo := none }

/-- A location message without user id. -/
def ubi : UbicacionData :=
  { userId := none, lat := some 10, lng := some 20, speed := none, accuracy := none
    timestamp := none }

/-- A location message that names user "X" in its payload. -/
def ubiX : UbicacionData :=
  { userId := some "X", lat := some 10, lng := some 20, speed := none, accuracy := none
    timestamp := none }

/-- A gps-sample message without user id. -/
def muestra : CoordenadaMsg :=
  { lat := some 10, lng := some 20, accuracy := none, userId := none }

/-- An environment in which `registrarOActualizarUsuario` throws. -/
def envFallaRegistrar : Entorno :=
  { now := 9, errRegistrar := some "SQLITE_IOERR", errGetUsuario := none, errSave := none }

/-- An environment in which `saveCoordenadaGPS` throws. -/
def envFallaSave : Entorno :=
  { now := 9, errRegistrar := none, errGetUsuario := none, errSave := some "SQLITE_IOERR" }

/-- Connection 1 registers as "A", then connection 2 registers as "A" while
connection 1 is still open: the registry binds "A" to connection 2. -/
def dosSocketsA : State :=
  (run (State.inicial db0)
    [.connection, .usuarioConectado 1 regA (.sinErrores 5),
     .connection, .usuarioConectado 2 regA (.sinErrores 6)]).1

/-- The socket object of connection 1 in `dosSocketsA`. -/
def socket1A : Socket :=
  { id := 1, userId := some "A"
    userInfo := some { numUsuario := some 1, nombre := none, plataforma := "web" } }

/-- The socket object of connection 2 in `dosSocketsA`. -/
def socket2A : Socket :=
  { id := 2, userId := some "A"
    userInfo := some { numUsuario := some 1, nombre := none, plataforma := "web" } }

/-- Connection 1 registers as "A" and then, on the same connection, as "B":
the registry binds both ids to connection 1 and `socket.userId` is "B". -/
def dosIds : State :=
  (run (State.inicial db0)
    [.connection, .usuarioConectado 1 regA (.sinErrores 5),
     .usuarioConectado 1 regB (.sinErrores 6)]).1

/-- The state `dosIds` after connection 1 has closed and connection 2 has
opened: the registry still binds "A" to connection 1, which is gone. -/
def obsoletoA : State :=
  (run dosIds [.disconnect 1 7, .connection]).1

/-- The socket object of connection 2 in `obsoletoA`. -/
def socket2 : Socket := { id := 2, userId := none, userInfo := none }

/-- One open connection that has sent nothing yet. -/
def unaConexion : State := (run (State.inicial db0) [.connection]).1

/-- The socket object of connection 1 in `unaConexion`. -/
def socket1 : Socket := { id := 1, userId := none, userInfo := none }

/-- The state `dosSocketsA` after connection 1 has sent a location: the
location cache holds one entry, for "A". -/
def conUbicacion : State :=
  (run dosSocketsA [.ubicacionActual 1 ubi (.sinErrores 7)]).1

/-- Connection 1 registers as "A", sends a location, registers as "B" and
closes; connection 2 opens. The registry still binds "A" to connection 1, which
is gone, and the location cache still holds the sample of "A". -/
def obsoletoConUbicacion : State :=
  (run (State.inicial db0)
    [.connection, .usuarioConectado 1 regA (.sinErrores 5),
     .ubicacionActual 1 ubi (.sinErrores 6), .usuarioConectado 1 regB (.sinErrores 7),
     .disconnect 1 8, .connection]).1

/-- A table of two users with numbers 1 and 2. -/
def dbDos : Db :=
  (run (State.inicial db0)
    [.connection, .usuarioConectado 1 regA (.sinErrores 5),
     .usuarioConectado 1 regB (.sinErrores 6)]).1.db

/-- A table whose only user carries the number 2^53. -/
def dbGrande : Db :=
  { usuarios :=
      [{ id := "G", num_usuario := some 9007199254740992, nombre := none
         plataforma := some "web", modelo_dispositivo := none, fecha_registro := 1
         ultima_conexion := 1 }]
    coordenadas_gps := [], seq_coordenadas := 0 }

/-- A location message with a speed and a timestamp, older than the sample the
cache of `conUbicacion` holds. -/
def ubiRapida : UbicacionData :=
  { userId := none, lat := some 11, lng := some 22, speed := some 7, accuracy := some 3
    timestamp := some 2 }

/-- Connection 1 registers as "A" and then as "B"; connection 2 registers as
"B". The registry binds "A" to connection 1 and "B" to connection 2, and the
`socket.userId` of connection 1 is "B". -/
def relevadoB : State :=
  (run dosIds [.connection, .usuarioConectado 2 regB (.sinErrores 7)]).1

/-- The socket object of connection 1 in `dosIds` and `relevadoB`. -/
def socket1AB : Socket :=
  { id := 1, userId := some "B"
    userInfo := some { numUsuario := some 2, nombre := some "Bea", plataforma := "android" } }

/-- Connection 1 registers as "A", then as "B", and closes; connections 2 and 3
open. The registry still binds "A" to connection 1, which is gone. -/
def obsoletoDosAbiertos : State :=
  (run dosIds [.disconnect 1 7, .connection, .connection]).1

/-- What a registration run for "A" holds when it suspends in
`obsoletoDosAbiertos`: it has read connection 1 from the registry. -/
def suspendidoA : RegistroSuspendido :=
  { data := regA, id := "A", socketIdAnterior := 1 }

/-- Connection 2 sends 'usuario-conectado' for "A" twice back to back in
`obsoletoDosAbiertos`; both runs suspend, then the first run resumes. -/
def primeraReanudacion : Resultado :=
  reanudarRegistro obsoletoDosAbiertos socket2 suspendidoA (.sinErrores 9)

/-- The second run resumes after the first has finished. -/
def segundaReanudacion : Resultado :=
  reanudarRegistro primeraReanudacion.st primeraReanudacion.socket suspendidoA
    (.sinErrores 9)

end Ejemplo

/-! ## Lemmas on maps and truthiness -/

namespace JsMap

variable {κ ν : Type} [DecidableEq κ]

theorem get_delete_self (m : JsMap κ ν) (k : κ) : (m.delete k).get k = none := by
  induction m with
  | nil => rfl
  | cons e rest ih =>
    obtain ⟨k1, v⟩ := e
    by_cases h : k1 = k
    · simpa [delete, List.filter_cons, h] using ih
    · simpa [delete, List.filter_cons, h, get] using ih

theorem get_delete_ne (m : JsMap κ ν) (k k2 : κ) (hne : k2 ≠ k) :
    (m.delete k).get k2 = m.get k2 := by
  induction m with
  | nil => rfl
  | cons e rest ih =>
    obtain ⟨k1, v⟩ := e
    have ih2 : get (List.filter (fun e => e.1 ≠ k) rest) k2 = get rest k2 := ih
    by_cases h : k1 = k
    · subst h
      have h2 : ¬ k1 = k2 := fun h3 => hne h3.symm
      simp only [delete, List.filter_cons, ne_eq, not_true_eq_false, decide_False,
        Bool.false_eq_true, ↓reduceIte, get, h2]
      simpa using ih2
    · by_cases h2 : k1 = k2
      · subst h2
        simp [delete, List.filter_cons, h, get]
      · simp only [delete, List.filter_cons, ne_eq, h, not_false_eq_true, decide_True,
          ↓reduceIte, get, h2]
        simpa using ih2

theorem get_delete_some (m : JsMap κ ν) (k k2 : κ) (v : ν)
    (h : (m.delete k).get k2 = some v) : m.get k2 = some v ∧ k2 ≠ k := by
  by_cases hk : k2 = k
  · subst hk
    rw [get_delete_self] at h
    cases h
  · rw [get_delete_ne m k k2 hk] at h
    exact ⟨h, hk⟩

theorem get_set_self (m : JsMap κ ν) (k : κ) (v : ν) : (m.set k v).get k = some v := by
  induction m with
  | nil => simp [set, get]
  | cons e rest ih =>
    obtain ⟨k1, v1⟩ := e
    by_cases h : k1 = k
    · simp [set, get, h]
    · simpa [set, get, h] using ih

theorem get_set_ne (m : JsMap κ ν) (k k2 : κ) (v : ν) (hne : k2 ≠ k) :
    (m.set k v).get k2 = m.get k2 := by
  have h0 : ¬ k = k2 := fun h3 => hne h3.symm
  induction m with
  | nil => simp [set, get, h0]
  | cons e rest ih =>
    obtain ⟨k1, v1⟩ := e
    by_cases h : k1 = k
    · subst h
      simp [set, get, h0]
    · by_cases h2 : k1 = k2
      · subst h2
        simp [set, get, h]
      · simp only [set, h, ↓reduceIte, get, h2]
        exact ih

theorem get_set_some (m : JsMap κ ν) (k k2 : κ) (v w : ν)
    (h : (m.set k v).get k2 = some w) : (k2 = k ∧ w = v) ∨ (k2 ≠ k ∧ m.get k2 = some w) := by
  by_cases hk : k2 = k
  · subst hk
    rw [get_set_self] at h
    exact Or.inl ⟨rfl, (Option.some.inj h).symm⟩
  · rw [get_set_ne m k k2 v hk] at h
    exact Or.inr ⟨hk, h⟩

end JsMap

theorem strOrNull_some_eq (s : Option String) (v : String) (h : strOrNull s = some v) :
    s = some v ∧ v ≠ "" := by
  cases s with
  | none => simp [strOrNull] at h
  | some w =>
    by_cases hw : w = ""
    · simp [strOrNull, hw] at h
    · simp [strOrNull, hw] at h
      subst h
      exact ⟨rfl, hw⟩

theorem strOrNull_of_ne (v : String) (h : v ≠ "") : strOrNull (some v) = some v := by
  simp [strOrNull, h]

theorem strOr_ne_empty (s : Option String) (d : String) (hd : d ≠ "") : strOr s d ≠ "" := by
  unfold strOr
  cases h : strOrNull s with
  | none => simpa using hd
  | some v => simpa using (strOrNull_some_eq s v h).2

/-! ## Lemmas on the handlers -/

/-- The three cases of the reconnection check. -/
theorem verificar_cases (st : State) (id : String) :
    (st.userSocketMap.get id = none ∧ verificarConexionAnterior st id = (st, false)) ∨
    (∃ a, st.userSocketMap.get id = some a ∧ (∃ s ∈ st.sockets, s.id = a) ∧
      verificarConexionAnterior st id = (st, true)) ∨
    (∃ a, st.userSocketMap.get id = some a ∧ (∀ s ∈ st.sockets, s.id ≠ a) ∧
      verificarConexionAnterior st id =
        ({ st with
            userSocketMap := st.userSocketMap.delete id
            usuariosNotificados := st.usuariosNotificados.delete id }, false)) := by
  unfold verificarConexionAnterior fetchSockets
  cases hget : st.userSocketMap.get id with
  | none => exact Or.inl ⟨rfl, rfl⟩
  | some a =>
    right
    cases hfind : st.sockets.find? (fun s => s.id = a) with
    | some s =>
      left
      refine ⟨a, rfl, ⟨s, List.mem_of_find?_eq_some hfind, ?_⟩, ?_⟩
      · simpa using List.find?_some hfind
      · simp [hfind]
    | none =>
      right
      refine ⟨a, rfl, ?_, ?_⟩
      · intro s hs
        have := List.find?_eq_none.mp hfind s hs
        simpa using this
      · simp [hfind]

theorem verificar_frame (st : State) (id : String) :
    (verificarConexionAnterior st id).1.sockets = st.sockets ∧
    (verificarConexionAnterior st id).1.nextSocketId = st.nextSocketId ∧
    (verificarConexionAnterior st id).1.ultimasUbicaciones = st.ultimasUbicaciones ∧
    (verificarConexionAnterior st id).1.db = st.db := by
  rcases verificar_cases st id with ⟨_, h⟩ | ⟨a, _, _, h⟩ | ⟨a, _, _, h⟩ <;> simp [h]

theorem verificar_get (st : State) (id k : String) (v : Nat)
    (h : (verificarConexionAnterior st id).1.userSocketMap.get k = some v) :
    st.userSocketMap.get k = some v := by
  rcases verificar_cases st id with ⟨_, h2⟩ | ⟨a, _, _, h2⟩ | ⟨a, _, _, h2⟩
  · simpa [h2] using h
  · simpa [h2] using h
  · rw [h2] at h
    exact (JsMap.get_delete_some _ _ _ _ h).1

theorem registrar_sin_error (db : Db) (ud : UserData) (now : Nat) :
    ∃ db2 u, registrarOActualizarUsuario db ud now none = .ok (db2, u) := by
  unfold registrarOActualizarUsuario
  dsimp only
  split <;> exact ⟨_, _, rfl⟩

theorem registrar_con_error (db : Db) (ud : UserData) (now : Nat) (msg : String) :
    registrarOActualizarUsuario db ud now (some msg) = .error msg := rfl

theorem onUsuarioConectado_sin_id (st : State) (socket : Socket) (data : RegistroData)
    (env : Entorno) (hid : strOrNull data.id = none) :
    onUsuarioConectado st socket data env = { st := st, socket := socket, out := [] } := by
  simp only [onUsuarioConectado, hid]

theorem onUsuarioConectado_falla (st : State) (socket : Socket) (data : RegistroData)
    (env : Entorno) (id msg : String) (hid : strOrNull data.id = some id)
    (herr : env.errRegistrar = some msg) :
    onUsuarioConectado st socket data env =
      { st := (verificarConexionAnterior st id).1
        socket := { socket with userId := some id }
        out := [{ destino := .socket socket.id, event := "usuario-registrado"
                  data := .usuarioRegistrado false none none (some msg) }] } := by
  simp only [onUsuarioConectado, hid, herr, registrar_con_error, socketEmit]

theorem onUsuarioConectado_ok (st : State) (socket : Socket) (data : RegistroData)
    (env : Entorno) (id : String) (hid : strOrNull data.id = some id)
    (herr : env.errRegistrar = none) :
    ∃ db2 usuario,
      registrarOActualizarUsuario (verificarConexionAnterior st id).1.db
        { id := id, nombre := strOrNull data.nombre
          plataforma := some (strOr data.plataforma "web")
          modeloDispositivo := strOrNull data.modeloDispositivo } env.now none
        = .ok (db2, usuario) ∧
      (onUsuarioConectado st socket data env).socket =
        { id := socket.id, userId := some id
          userInfo := some
            { numUsuario := numOrNull usuario.row.num_usuario
              nombre := strOrNull usuario.row.nombre
              plataforma := strOr usuario.row.plataforma "web" } } ∧
      (onUsuarioConectado st socket data env).st =
        { (verificarConexionAnterior st id).1 with
          db := db2
          userSocketMap := (verificarConexionAnterior st id).1.userSocketMap.set id socket.id
          usuariosNotificados :=
            if (verificarConexionAnterior st id).2 then
              (verificarConexionAnterior st id).1.usuariosNotificados
            else (verificarConexionAnterior st id).1.usuariosNotificados.set id true } ∧
      (onUsuarioConectado st socket data env).out =
        (if (verificarConexionAnterior st id).2 then []
          else [{ destino := .broadcast socket.id, event := "cliente-conectado"
                  data := .clienteConectado id (numOrNull usuario.row.num_usuario)
                    (strOrNull data.nombre) (strOr data.plataforma "web") env.now }]) ++
        (match getUsuarioById db2 id env.errGetUsuario with
          | .error msg =>
            [{ destino := .socket socket.id, event := "usuario-registrado"
               data := .usuarioRegistrado false none none (some msg) }]
          | .ok fila =>
            { destino := .socket socket.id, event := "usuario-registrado"
              data := .usuarioRegistrado true (some id) fila none } ::
            (if st.ultimasUbicaciones.size > 0 then
              [{ destino := .socket socket.id, event := "ubicaciones-usuarios-conectados"
                 data := .ubicacionesUsuariosConectados
                   (ubicacionesExistentes st.ultimasUbicaciones env.now) }]
             else [])) := by
  obtain ⟨db2, usuario, hreg⟩ := registrar_sin_error (verificarConexionAnterior st id).1.db
    { id := id, nombre := strOrNull data.nombre
      plataforma := some (strOr data.plataforma "web")
      modeloDispositivo := strOrNull data.modeloDispositivo } env.now
  refine ⟨db2, usuario, hreg, ?_⟩
  have hf := verificar_frame st id
  simp only [onUsuarioConectado, hid, herr, hreg, socketEmit, broadcastEmit]
  cases hya : (verificarConexionAnterior st id).2 <;>
    cases hget : getUsuarioById db2 id env.errGetUsuario <;>
    simp [hget, hf.2.2.1] <;> split <;> simp_all

theorem onUsuarioConectado_socket_id (st : State) (socket : Socket) (data : RegistroData)
    (env : Entorno) : (onUsuarioConectado st socket data env).socket.id = socket.id := by
  cases hid : strOrNull data.id with
  | none => rw [onUsuarioConectado_sin_id st socket data env hid]
  | some id =>
    cases herr : env.errRegistrar with
    | some msg => rw [onUsuarioConectado_falla st socket data env id msg hid herr]
    | none =>
      obtain ⟨db2, u, _, hs, _, _⟩ := onUsuarioConectado_ok st socket data env id hid herr
      rw [hs]

theorem onUsuarioConectado_frame (st : State) (socket : Socket) (data : RegistroData)
    (env : Entorno) :
    (onUsuarioConectado st socket data env).st.sockets = st.sockets ∧
    (onUsuarioConectado st socket data env).st.nextSocketId = st.nextSocketId ∧
    (onUsuarioConectado st socket data env).st.ultimasUbicaciones = st.ultimasUbicaciones := by
  cases hid : strOrNull data.id with
  | none =>
    rw [onUsuarioConectado_sin_id st socket data env hid]
    exact ⟨rfl, rfl, rfl⟩
  | some id =>
    have hf := verificar_frame st id
    cases herr : env.errRegistrar with
    | some msg =>
      rw [onUsuarioConectado_falla st socket data env id msg hid herr]
      exact ⟨hf.1, hf.2.1, hf.2.2.1⟩
    | none =>
      obtain ⟨db2, u, _, _, hs, _⟩ := onUsuarioConectado_ok st socket data env id hid herr
      rw [hs]
      exact ⟨hf.1, hf.2.1, hf.2.2.1⟩

theorem onUsuarioConectado_registrado (st : State) (socket : Socket) (data : RegistroData)
    (env : Entorno) (h : socket.registrado) :
    (onUsuarioConectado st socket data env).socket.registrado := by
  cases hid : strOrNull data.id with
  | none =>
    rw [onUsuarioConectado_sin_id st socket data env hid]
    exact h
  | some id =>
    cases herr : env.errRegistrar with
    | some msg =>
      rw [onUsuarioConectado_falla st socket data env id msg hid herr]
      exact h
    | none =>
      obtain ⟨db2, u, _, hs, _, _⟩ := onUsuarioConectado_ok st socket data env id hid herr
      rw [hs]
      exact ⟨_, rfl, strOr_ne_empty _ _ (by decide)⟩

theorem onUsuarioConectado_get (st : State) (socket : Socket) (data : RegistroData)
    (env : Entorno) (k : String) (v : Nat)
    (h : (onUsuarioConectado st socket data env).st.userSocketMap.get k = some v) :
    (v = socket.id ∧ k ≠ "" ∧ (onUsuarioConectado st socket data env).socket.registrado) ∨
      st.userSocketMap.get k = some v := by
  cases hid : strOrNull data.id with
  | none =>
    rw [onUsuarioConectado_sin_id st socket data env hid] at h
    exact Or.inr h
  | some id =>
    cases herr : env.errRegistrar with
    | some msg =>
      rw [onUsuarioConectado_falla st socket data env id msg hid herr] at h
      exact Or.inr (verificar_get st id k v h)
    | none =>
      obtain ⟨db2, u, _, hs, hst, _⟩ := onUsuarioConectado_ok st socket data env id hid herr
      rw [hst] at h
      rcases JsMap.get_set_some _ _ _ _ _ h with ⟨hk, hv⟩ | ⟨_, hold⟩
      · left
        refine ⟨hv, ?_, ?_⟩
        · rw [hk]
          exact (strOrNull_some_eq _ _ hid).2
        · rw [hs]
          exact ⟨_, rfl, strOr_ne_empty _ _ (by decide)⟩
      · exact Or.inr (verificar_get st id k v hold)

theorem onCoordenadaActualizar_frame (st : State) (socket : Socket) (data : CoordenadaMsg)
    (env : Entorno) :
    (onCoordenadaActualizar st socket data env).socket = socket ∧
    (onCoordenadaActualizar st socket data env).st.sockets = st.sockets ∧
    (onCoordenadaActualizar st socket data env).st.nextSocketId = st.nextSocketId ∧
    (onCoordenadaActualizar st socket data env).st.userSocketMap = st.userSocketMap ∧
    (onCoordenadaActualizar st socket data env).st.usuariosNotificados =
      st.usuariosNotificados ∧
    (onCoordenadaActualizar st socket data env).st.ultimasUbicaciones =
      st.ultimasUbicaciones := by
  unfold onCoordenadaActualizar
  split
  · dsimp only
    split <;> simp
  · simp

theorem onUbicacionActual_frame (st : State) (socket : Socket) (data : UbicacionData)
    (env : Entorno) :
    (onUbicacionActual st socket data env).socket = socket ∧
    (onUbicacionActual st socket data env).st.sockets = st.sockets ∧
    (onUbicacionActual st socket data env).st.nextSocketId = st.nextSocketId ∧
    (onUbicacionActual st socket data env).st.userSocketMap = st.userSocketMap ∧
    (onUbicacionActual st socket data env).st.usuariosNotificados =
      st.usuariosNotificados := by
  unfold onUbicacionActual
  split
  · split <;> simp
  · simp

theorem onDisconnect_frame (st : State) (socket : Socket) (now : Nat) :
    (onDisconnect st socket now).socket = socket ∧
    (onDisconnect st socket now).st.sockets = st.sockets ∧
    (onDisconnect st socket now).st.nextSocketId = st.nextSocketId ∧
    (onDisconnect st socket now).st.db = st.db := by
  unfold onDisconnect
  split
  · simp
  · dsimp only
    split
    · split
      · split <;> simp
      · simp
    · simp

theorem onDisconnect_noop (st : State) (socket : Socket) (now : Nat)
    (h : ∀ u, strOrNull socket.userId = some u → st.userSocketMap.get u ≠ some socket.id) :
    onDisconnect st socket now = { st := st, socket := socket, out := [] } := by
  unfold onDisconnect
  cases hu : strOrNull socket.userId with
  | none => rfl
  | some u => simp [h u hu]

theorem onDisconnect_vigente (st : State) (socket : Socket) (now : Nat) (u : String)
    (hu : strOrNull socket.userId = some u)
    (hb : st.userSocketMap.get u = some socket.id) :
    (onDisconnect st socket now).st =
      { st with
        userSocketMap := st.userSocketMap.delete u
        usuariosNotificados := st.usuariosNotificados.delete u
        ultimasUbicaciones := st.ultimasUbicaciones.delete u } ∧
    (onDisconnect st socket now).out =
      (match socket.userInfo with
        | some userInfo =>
          if (numOrNull userInfo.numUsuario).isSome ∨ userInfo.plataforma ≠ "" then
            [{ destino := .broadcast socket.id, event := "cliente-desconectado"
               data := .clienteDesconectado u (numOrNull userInfo.numUsuario)
                 (strOrNull userInfo.nombre) (strOr (some userInfo.plataforma) "web") now }]
          else []
        | none => []) := by
  unfold onDisconnect
  simp only [hu, hb, ↓reduceIte, broadcastEmit]
  cases socket.userInfo with
  | none => exact ⟨rfl, rfl⟩
  | some ui =>
    dsimp only
    split <;> exact ⟨rfl, rfl⟩

theorem onDisconnect_get (st : State) (socket : Socket) (now : Nat) (k : String) (v : Nat)
    (h : (onDisconnect st socket now).st.userSocketMap.get k = some v) :
    st.userSocketMap.get k = some v := by
  by_cases hc : ∀ u, strOrNull socket.userId = some u →
      st.userSocketMap.get u ≠ some socket.id
  · rw [onDisconnect_noop st socket now hc] at h
    exact h
  · push_neg at hc
    obtain ⟨u, hu, hb⟩ := hc
    rw [(onDisconnect_vigente st socket now u hu hb).1] at h
    exact (JsMap.get_delete_some _ _ _ _ h).1

theorem buscarSocket_some (st : State) (sid : Nat) (socket : Socket)
    (h : buscarSocket st sid = some socket) : socket ∈ st.sockets ∧ socket.id = sid := by
  unfold buscarSocket at h
  exact ⟨List.mem_of_find?_eq_some h, by simpa using List.find?_some h⟩

theorem map_id_reemplazo (l : List Socket) (nuevo : Socket) (sid : Nat)
    (h : nuevo.id = sid) :
    (l.map (fun s => if s.id = sid then nuevo else s)).map (fun s => s.id) =
      l.map (fun s => s.id) := by
  induction l with
  | nil => rfl
  | cons a rest ih =>
    simp only [List.map_cons, ih, List.cons.injEq, and_true]
    split
    · rename_i h2
      rw [h, h2]
    · rfl

theorem inv_inicial (db : Db) : Inv (State.inicial db) := by
  refine ⟨?_, ?_, ?_, ?_, ?_⟩ <;> simp [State.inicial, JsMap.get]

/-- A handler run that keeps the socket id and the open sockets, and adds to the
registry at most bindings to its own, registered, socket, preserves the
invariant once the socket object is stored back. -/
theorem inv_guardar (st : State) (socket : Socket) (r : Resultado) (hinv : Inv st)
    (hmem : socket ∈ st.sockets) (hid : r.socket.id = socket.id)
    (hsock : r.st.sockets = st.sockets) (hnext : r.st.nextSocketId = st.nextSocketId)
    (hmap : ∀ k v, r.st.userSocketMap.get k = some v →
      (v = socket.id ∧ k ≠ "" ∧ r.socket.registrado) ∨ st.userSocketMap.get k = some v)
    (hreg : socket.registrado → r.socket.registrado) :
    Inv (guardarSocket r).1 := by
  have hids : ((guardarSocket r).1.sockets).map (fun s => s.id) =
      st.sockets.map (fun s => s.id) := by
    simp only [guardarSocket, hsock]
    exact map_id_reemplazo st.sockets r.socket r.socket.id rfl
  refine ⟨?_, ?_, ?_, ?_, ?_⟩
  · rw [hids]
    exact hinv.nodup
  · intro s hs
    have h1 : s.id ∈ ((guardarSocket r).1.sockets).map (fun s => s.id) :=
      List.mem_map_of_mem _ hs
    rw [hids] at h1
    obtain ⟨t, ht, hst⟩ := List.mem_map.mp h1
    have := hinv.ids_lt t ht
    simp only [guardarSocket, hnext]
    omega
  · intro k v hget
    simp only [guardarSocket] at hget ⊢
    rw [hnext]
    rcases hmap k v hget with ⟨hv, _, _⟩ | hold
    · rw [hv]
      exact hinv.ids_lt socket hmem
    · exact hinv.bind_lt k v hold
  · intro k v hget
    simp only [guardarSocket] at hget
    rcases hmap k v hget with ⟨_, hk, _⟩ | hold
    · exact hk
    · exact hinv.keys_ne k v hold
  · intro s hs k hget
    simp only [guardarSocket, hsock] at hs hget
    obtain ⟨t, ht, hts⟩ := List.mem_map.mp hs
    by_cases hc : t.id = r.socket.id
    · rw [if_pos hc] at hts
      subst hts
      rcases hmap k _ hget with ⟨_, _, hr⟩ | hold
      · exact hr
      · rw [hid] at hold
        exact hreg (hinv.info socket hmem k hold)
    · rw [if_neg hc] at hts
      subst hts
      rcases hmap k _ hget with ⟨hv, _, _⟩ | hold
      · exact absurd (hv.trans hid.symm) hc
      · exact hinv.info t ht k hold

theorem inv_step (st : State) (ev : Evento) (hinv : Inv st) : Inv (step st ev).1 := by
  cases ev with
  | connection =>
    simp only [step]
    refine ⟨?_, ?_, ?_, ?_, ?_⟩
    · simp only [List.map_append, List.map_cons, List.map_nil]
      rw [List.nodup_append]
      refine ⟨hinv.nodup, by simp, ?_⟩
      intro a ha hb
      simp only [List.mem_singleton] at hb
      obtain ⟨t, ht, hta⟩ := List.mem_map.mp ha
      have := hinv.ids_lt t ht
      omega
    · intro s hs
      simp only [List.mem_append, List.mem_singleton] at hs
      rcases hs with hs | hs
      · exact Nat.lt_succ_of_lt (hinv.ids_lt s hs)
      · subst hs
        exact Nat.lt_succ_self _
    · intro k v hget
      exact Nat.lt_succ_of_lt (hinv.bind_lt k v hget)
    · exact hinv.keys_ne
    · intro s hs k hget
      simp only [List.mem_append, List.mem_singleton] at hs
      rcases hs with hs | hs
      · exact hinv.info s hs k hget
      · subst hs
        have := hinv.bind_lt k _ hget
        simp at this
  | usuarioConectado sid data env =>
    simp only [step]
    cases hb : buscarSocket st sid with
    | none => exact hinv
    | some socket =>
      have hm := buscarSocket_some st sid socket hb
      have hf := onUsuarioConectado_frame st socket data env
      exact inv_guardar st socket _ hinv hm.1 (onUsuarioConectado_socket_id st socket data env)
        hf.1 hf.2.1 (onUsuarioConectado_get st socket data env)
        (onUsuarioConectado_registrado st socket data env)
  | coordenadaActualizar sid data env =>
    simp only [step]
    cases hb : buscarSocket st sid with
    | none => exact hinv
    | some socket =>
      have hm := buscarSocket_some st sid socket hb
      have hf := onCoordenadaActualizar_frame st socket data env
      refine inv_guardar st socket _ hinv hm.1 (by rw [hf.1]) hf.2.1 hf.2.2.1 ?_ ?_
      · intro k v h
        rw [hf.2.2.2.1] at h
        exact Or.inr h
      · intro h
        rw [hf.1]
        exact h
  | ubicacionActual sid data env =>
    simp only [step]
    cases hb : buscarSocket st sid with
    | none => exact hinv
    | some socket =>
      have hm := buscarSocket_some st sid socket hb
      have hf := onUbicacionActual_frame st socket data env
      refine inv_guardar st socket _ hinv hm.1 (by rw [hf.1]) hf.2.1 hf.2.2.1 ?_ ?_
      · intro k v h
        rw [hf.2.2.2.1] at h
        exact Or.inr h
      · intro h
        rw [hf.1]
        exact h
  | disconnect sid now =>
    simp only [step]
    cases hb : buscarSocket st sid with
    | none => exact hinv
    | some socket =>
      simp only
      have hf := onDisconnect_frame
        { st with sockets := st.sockets.filter (fun s => s.id ≠ sid) } socket now
      refine ⟨?_, ?_, ?_, ?_, ?_⟩
      · rw [hf.2.1]
        exact (hinv.nodup).sublist ((List.filter_sublist _).map _)
      · intro s hs
        rw [hf.2.1] at hs
        rw [hf.2.2.1]
        exact hinv.ids_lt s (List.mem_of_mem_filter hs)
      · intro k v hget
        rw [hf.2.2.1]
        exact hinv.bind_lt k v (by simpa using onDisconnect_get _ _ _ k v hget)
      · intro k v hget
        exact hinv.keys_ne k v (by simpa using onDisconnect_get _ _ _ k v hget)
      · intro s hs k hget
        rw [hf.2.1] at hs
        exact hinv.info s (List.mem_of_mem_filter hs) k (by simpa using onDisconnect_get _ _ _ k _ hget)

theorem reachable_inv (db : Db) (st : State) (h : Reachable db st) : Inv st := by
  induction h with
  | inicial => exact inv_inicial db
  | paso st ev _ ih => exact inv_step st ev ih

theorem reachable_run (db : Db) (st : State) (evs : List Evento) (h : Reachable db st) :
    Reachable db (run st evs).1 := by
  induction evs generalizing st with
  | nil => exact h
  | cons ev rest ih => exact ih (step st ev).1 (Reachable.paso st ev h)

theorem step_disconnect_vigente (db : Db) (st : State) (sid : Nat) (socket : Socket)
    (id : String) (now : Nat) (hreach : Reachable db st)
    (hopen : buscarSocket st sid = some socket) (hid : socket.userId = some id)
    (hbind : st.userSocketMap.get id = some sid) :
    ∃ ui, socket.userInfo = some ui ∧
      (step st (.disconnect sid now)).1 =
        { st with
          sockets := st.sockets.filter (fun s => s.id ≠ sid)
          userSocketMap := st.userSocketMap.delete id
          usuariosNotificados := st.usuariosNotificados.delete id
          ultimasUbicaciones := st.ultimasUbicaciones.delete id } ∧
      (step st (.disconnect sid now)).2 =
        [{ destino := .broadcast sid, event := "cliente-desconectado"
           data := .clienteDesconectado id (numOrNull ui.numUsuario) (strOrNull ui.nombre)
             (strOr (some ui.plataforma) "web") now }] := by
  have hinv := reachable_inv db st hreach
  obtain ⟨hmem, hsid⟩ := buscarSocket_some st sid socket hopen
  subst hsid
  obtain ⟨ui, hui, hplat⟩ := hinv.info socket hmem id hbind
  have hne := hinv.keys_ne id _ hbind
  have hu : strOrNull socket.userId = some id := by
    rw [hid]
    exact strOrNull_of_ne id hne
  have hv := onDisconnect_vigente
    { st with sockets := st.sockets.filter (fun s => s.id ≠ socket.id) } socket now id hu hbind
  refine ⟨ui, hui, ?_, ?_⟩
  · simp only [step, hopen]
    exact hv.1
  · simp only [step, hopen]
    rw [hv.2, hui]
    simp [hplat]

/-! ## Claims -/

/-- C1 (race guard). If the socket object `socket` carries `socket.userId = id`
and the registry `userSocketMap` binds `id` to a connection other than `socket`
(a newer registration superseded it), the disconnect handler for `socket` leaves
the whole state unchanged, in particular `userSocketMap`, `usuariosNotificados`
and `ultimasUbicaciones`, and makes no emit call, so no 'cliente-desconectado'
is sent. This holds in every state, reachable or not. -/
theorem disconnect_superseded_is_noop (st : State) (socket : Socket) (id : String)
    (otro now : Nat) (hid : socket.userId = some id)
    (hbind : st.userSocketMap.get id = some otro) (hotro : otro ≠ socket.id) :
    (onDisconnect st socket now).st = st ∧ (onDisconnect st socket now).out = [] := by
  unfold onDisconnect
  cases h : strOrNull socket.userId with
  | none => exact ⟨rfl, rfl⟩
  | some u =>
    have hu : u = id := by
      have := (strOrNull_some_eq _ _ h).1
      rw [hid] at this
      exact (Option.some.inj this).symm
    subst hu
    have hne : st.userSocketMap.get u ≠ some socket.id := by
      rw [hbind]
      intro h2
      exact hotro (Option.some.inj h2)
    simp [hne]

theorem disconnect_superseded_is_noop_witness :
    (Ejemplo.socket1A.userId = some "A" ∧
      Ejemplo.dosSocketsA.userSocketMap.get "A" = some 2 ∧ 2 ≠ Ejemplo.socket1A.id) ∧
    (onDisconnect Ejemplo.dosSocketsA Ejemplo.socket1A 7).st = Ejemplo.dosSocketsA ∧
    (onDisconnect Ejemplo.dosSocketsA Ejemplo.socket1A 7).out = [] :=
  ⟨⟨rfl, by decide, by decide⟩,
    disconnect_superseded_is_noop Ejemplo.dosSocketsA Ejemplo.socket1A "A" 2 7 rfl
      (by decide) (by decide)⟩

/-- C2, counterexample. Connection 1 registers as "A" with success and then as
"B"; connection 2 registers as "B". Connection 1 is still the registry's binding
for "A", yet closing it and running its disconnect handler a second time emit
no 'cliente-desconectado' at all, and "A" stays bound to connection 1. -/
theorem teardown_of_relabelled_socket_emits_no_peer_left :
    Reachable Ejemplo.db0 Ejemplo.relevadoB ∧
    Ejemplo.relevadoB.userSocketMap.get "A" = some 1 ∧
    buscarSocket Ejemplo.relevadoB 1 = some Ejemplo.socket1AB ∧
    (step Ejemplo.relevadoB (.disconnect 1 8)).2 = [] ∧
    (onDisconnect (step Ejemplo.relevadoB (.disconnect 1 8)).1 Ejemplo.socket1AB 9).out = [] ∧
    (((step Ejemplo.relevadoB (.disconnect 1 8)).2 ++
      (onDisconnect (step Ejemplo.relevadoB (.disconnect 1 8)).1
        Ejemplo.socket1AB 9).out).filter
        (fun e => e.event = "cliente-desconectado")).length = 0 ∧
    (step Ejemplo.relevadoB (.disconnect 1 8)).1.userSocketMap.get "A" = some 1 :=
  ⟨reachable_run Ejemplo.db0 _ _ (reachable_run Ejemplo.db0 _ _ Reachable.inicial),
    by decide, by decide, by decide, by decide, by decide, by decide⟩

/-- C2 (idempotent teardown), amended. In a reachable state let `socket` be the
open connection `sid`, whose `socket.userId` is `id` and which is still the
registry's binding for `id`. Closing it runs the disconnect handler once, and
that run makes exactly one emit call, the 'cliente-desconectado' broadcast for
`id`. Running the disconnect handler for the same socket a second time returns
the state unchanged and makes no emit call, so both runs together emit exactly
one 'cliente-desconectado'. -/
theorem disconnect_twice_one_peer_left (db : Db) (st : State) (sid : Nat)
    (socket : Socket) (id : String) (now1 now2 : Nat) (hreach : Reachable db st)
    (hopen : buscarSocket st sid = some socket) (hid : socket.userId = some id)
    (hbind : st.userSocketMap.get id = some sid) :
    (∃ num nombre plat,
      (step st (.disconnect sid now1)).2 =
        [{ destino := .broadcast sid, event := "cliente-desconectado"
           data := .clienteDesconectado id num nombre plat now1 }]) ∧
    onDisconnect (step st (.disconnect sid now1)).1 socket now2 =
      { st := (step st (.disconnect sid now1)).1, socket := socket, out := [] } ∧
    (((step st (.disconnect sid now1)).2 ++
      (onDisconnect (step st (.disconnect sid now1)).1 socket now2).out).filter
        (fun e => e.event = "cliente-desconectado")).length = 1 := by
  obtain ⟨ui, _, hst, hout⟩ :=
    step_disconnect_vigente db st sid socket id now1 hreach hopen hid hbind
  have hnoop : onDisconnect (step st (.disconnect sid now1)).1 socket now2 =
      { st := (step st (.disconnect sid now1)).1, socket := socket, out := [] } := by
    apply onDisconnect_noop
    intro u hu
    have hu2 := (strOrNull_some_eq _ _ hu).1
    rw [hid] at hu2
    have hu3 : id = u := Option.some.inj hu2
    subst hu3
    rw [hst]
    simp [JsMap.get_delete_self]
  refine ⟨⟨_, _, _, hout⟩, hnoop, ?_⟩
  rw [hnoop, hout]
  simp

theorem disconnect_twice_one_peer_left_witness :
    (buscarSocket Ejemplo.dosSocketsA 2 = some Ejemplo.socket2A ∧
      Ejemplo.socket2A.userId = some "A" ∧
      Ejemplo.dosSocketsA.userSocketMap.get "A" = some 2) ∧
    ((∃ num nombre plat,
      (step Ejemplo.dosSocketsA (.disconnect 2 8)).2 =
        [{ destino := .broadcast 2, event := "cliente-desconectado"
           data := .clienteDesconectado "A" num nombre plat 8 }]) ∧
    onDisconnect (step Ejemplo.dosSocketsA (.disconnect 2 8)).1 Ejemplo.socket2A 9 =
      { st := (step Ejemplo.dosSocketsA (.disconnect 2 8)).1, socket := Ejemplo.socket2A
        out := [] } ∧
    (((step Ejemplo.dosSocketsA (.disconnect 2 8)).2 ++
      (onDisconnect (step Ejemplo.dosSocketsA (.disconnect 2 8)).1
        Ejemplo.socket2A 9).out).filter
        (fun e => e.event = "cliente-desconectado")).length = 1) :=
  ⟨⟨by decide, rfl, by decide⟩,
    disconnect_twice_one_peer_left Ejemplo.db0 Ejemplo.dosSocketsA 2 Ejemplo.socket2A "A" 8 9
      (reachable_run Ejemplo.db0 _ _ Reachable.inicial) (by decide) rfl (by decide)⟩

/-- C6, counterexample. Connection 1 registers as "A" and then as "B". The
registry binds "A" to connection 1 when connection 1 is torn down, yet after
the disconnect handler the registry still binds "A" to connection 1 and the only
'cliente-desconectado' emitted names "B". -/
theorem teardown_keeps_other_id_of_same_socket :
    Reachable Ejemplo.db0 Ejemplo.dosIds ∧
    Ejemplo.dosIds.userSocketMap.get "A" = some 1 ∧
    (buscarSocket Ejemplo.dosIds 1).isSome = true ∧
    (step Ejemplo.dosIds (.disconnect 1 7)).1.userSocketMap.get "A" = some 1 ∧
    (step Ejemplo.dosIds (.disconnect 1 7)).2 =
      [{ destino := .broadcast 1, event := "cliente-desconectado"
         data := .clienteDesconectado "B" (some 2) (some "Bea") "android" 7 }] :=
  ⟨reachable_run Ejemplo.db0 _ _ Reachable.inicial, by decide, by decide, by decide,
    by decide⟩

/-- C6 (valid teardown), amended. In a reachable state, if the registry binds
`id` to the open connection `sid` and that connection's `socket.userId` is `id`
when it is torn down, then after the disconnect handler there is no entry for
`id` in `userSocketMap`, `ultimasUbicaciones` or `usuariosNotificados`, and the
handler has made exactly one emit call: the broadcast of 'cliente-desconectado'
with `userId = id`, which reaches every connection that is still open. -/
theorem teardown_of_current_binding (db : Db) (st : State) (sid : Nat)
    (socket : Socket) (id : String) (now : Nat) (hreach : Reachable db st)
    (hopen : buscarSocket st sid = some socket) (hid : socket.userId = some id)
    (hbind : st.userSocketMap.get id = some sid) :
    (step st (.disconnect sid now)).1.userSocketMap.get id = none ∧
    (step st (.disconnect sid now)).1.ultimasUbicaciones.get id = none ∧
    (step st (.disconnect sid now)).1.usuariosNotificados.get id = none ∧
    (∃ num nombre plat,
      (step st (.disconnect sid now)).2 =
        [{ destino := .broadcast sid, event := "cliente-desconectado"
           data := .clienteDesconectado id num nombre plat now }]) ∧
    receptores (step st (.disconnect sid now)).1.sockets (.broadcast sid) =
      (step st (.disconnect sid now)).1.sockets.map (fun s => s.id) := by
  obtain ⟨ui, _, hst, hout⟩ :=
    step_disconnect_vigente db st sid socket id now hreach hopen hid hbind
  refine ⟨?_, ?_, ?_, ⟨_, _, _, hout⟩, ?_⟩
  · rw [hst]
    exact JsMap.get_delete_self _ _
  · rw [hst]
    exact JsMap.get_delete_self _ _
  · rw [hst]
    exact JsMap.get_delete_self _ _
  · rw [hst]
    simp only [receptores]
    rw [List.filter_eq_self]
    intro a ha
    obtain ⟨t, ht, hta⟩ := List.mem_map.mp ha
    have := (List.mem_filter.mp ht).2
    subst hta
    simpa [Destino.alcanza] using this

theorem teardown_of_current_binding_witness :
    (buscarSocket Ejemplo.dosSocketsA 2 = some Ejemplo.socket2A ∧
      Ejemplo.socket2A.userId = some "A" ∧
      Ejemplo.dosSocketsA.userSocketMap.get "A" = some 2) ∧
    ((step Ejemplo.dosSocketsA (.disconnect 2 8)).1.userSocketMap.get "A" = none ∧
    (step Ejemplo.dosSocketsA (.disconnect 2 8)).1.ultimasUbicaciones.get "A" = none ∧
    (step Ejemplo.dosSocketsA (.disconnect 2 8)).1.usuariosNotificados.get "A" = none ∧
    (∃ num nombre plat,
      (step Ejemplo.dosSocketsA (.disconnect 2 8)).2 =
        [{ destino := .broadcast 2, event := "cliente-desconectado"
           data := .clienteDesconectado "A" num nombre plat 8 }]) ∧
    receptores (step Ejemplo.dosSocketsA (.disconnect 2 8)).1.sockets (.broadcast 2) =
      (step Ejemplo.dosSocketsA (.disconnect 2 8)).1.sockets.map (fun s => s.id)) :=
  ⟨⟨by decide, rfl, by decide⟩,
    teardown_of_current_binding Ejemplo.db0 Ejemplo.dosSocketsA 2 Ejemplo.socket2A "A" 8
      (reachable_run Ejemplo.db0 _ _ Reachable.inicial) (by decide) rfl (by decide)⟩

theorem count_receptores (sockets : List Socket)
    (hnd : (sockets.map (fun s => s.id)).Nodup) (d : Destino) (s : Socket)
    (hs : s ∈ sockets) :
    (receptores sockets d).count s.id = if d.alcanza s.id then 1 else 0 := by
  unfold receptores
  by_cases h : d.alcanza s.id = true
  · rw [if_pos h, List.count_filter h]
    exact List.count_eq_one_of_mem hnd (List.mem_map_of_mem _ hs)
  · rw [if_neg h]
    apply List.count_eq_zero_of_not_mem
    intro hmem
    exact h (List.mem_filter.mp hmem).2

theorem entregas_nil (sockets : List Socket) (sid : Nat) (event : String) (data : Payload) :
    entregas sockets [] sid event data = 0 := rfl

theorem entregas_append (sockets : List Socket) (o1 o2 : List Emit) (sid : Nat)
    (event : String) (data : Payload) :
    entregas sockets (o1 ++ o2) sid event data =
      entregas sockets o1 sid event data + entregas sockets o2 sid event data := by
  simp [entregas, List.filter_append]

theorem entregas_uno (sockets : List Socket) (d : Destino) (sid : Nat) (event : String)
    (data : Payload) :
    entregas sockets [{ destino := d, event := event, data := data }] sid event data =
      (receptores sockets d).count sid := by
  simp [entregas]

theorem countP_por_id (l : List Socket) (hnd : (l.map (fun s => s.id)).Nodup)
    (s : Socket) (hs : s ∈ l) (p : Socket → Bool) :
    l.countP (fun t => decide (t.id = s.id) && p t) = if p s then 1 else 0 := by
  induction l with
  | nil => cases hs
  | cons a rest ih =>
    simp only [List.map_cons, List.nodup_cons] at hnd
    rw [List.countP_cons]
    rcases List.mem_cons.mp hs with h | h
    · subst h
      have hz : rest.countP (fun t => decide (t.id = s.id) && p t) = 0 := by
        rw [List.countP_eq_zero]
        intro t ht
        have : t.id ≠ s.id := fun h2 => hnd.1 (h2 ▸ List.mem_map_of_mem _ ht)
        simp [this]
      rw [hz]
      simp
    · have hne : a.id ≠ s.id := fun h2 => hnd.1 (h2 ▸ List.mem_map_of_mem _ h)
      rw [ih hnd.2 h]
      simp [hne]

theorem entregas_emitToOthers (sockets l : List Socket)
    (hnd : (sockets.map (fun s => s.id)).Nodup) (hl : ∀ t ∈ l, t ∈ sockets)
    (u : String) (event : String) (data : Payload) (s : Socket) (hs : s ∈ sockets) :
    entregas sockets
      (l.flatMap (fun socket =>
        if socket.userId ≠ some u then socketEmit socket event data else []))
      s.id event data =
    l.countP (fun t => decide (t.id = s.id) && decide (t.userId ≠ some u)) := by
  induction l with
  | nil => rfl
  | cons a rest ih =>
    rw [List.flatMap_cons, entregas_append, ih (fun t ht => hl t (List.mem_cons_of_mem _ ht)),
      List.countP_cons, Nat.add_comm]
    congr 1
    by_cases hu : a.userId = some u
    · simp [hu, entregas_nil]
    · rw [if_pos hu, socketEmit, entregas_uno,
        count_receptores sockets hnd _ s hs]
      by_cases hid : a.id = s.id
      · simp [Destino.alcanza, hid, hu]
      · have hid2 : ¬ s.id = a.id := fun h => hid h.symm
        simp [Destino.alcanza, hid, hid2]

/-- C7. In a reachable state, `emitToOthers(u, e, p)` with a present user id `u`
resolves, every emit call it makes carries event `e` and payload `p`, and each
open connection is handed the event once when its `socket.userId` differs from
`u` (an undefined `socket.userId` included) and not at all when it equals `u`. -/
theorem emitToOthers_reaches_exactly_the_others (db : Db) (st : State) (u : String)
    (event : String) (data : Payload) (hreach : Reachable db st) (hu : u ≠ "") :
    ∃ out, emitToOthers st (some u) event data = .ok out ∧
      (∀ e ∈ out, e.event = event ∧ e.data = data) ∧
      ∀ s ∈ st.sockets,
        entregas st.sockets out s.id event data = if s.userId = some u then 0 else 1 := by
  have hnd := (reachable_inv db st hreach).nodup
  have heq : emitToOthers st (some u) event data =
      .ok (st.sockets.flatMap (fun socket =>
        if socket.userId ≠ some u then socketEmit socket event data else [])) := by
    simp only [emitToOthers, strOrNull_of_ne u hu, fetchSockets]
  refine ⟨_, heq, ?_, ?_⟩
  · intro e he
    simp only [List.mem_flatMap] at he
    obtain ⟨t, _, ht⟩ := he
    split at ht
    · simp only [socketEmit, List.mem_singleton] at ht
      subst ht
      exact ⟨rfl, rfl⟩
    · cases ht
  · intro s hs
    rw [entregas_emitToOthers st.sockets st.sockets hnd (fun t ht => ht) u event data s hs,
      countP_por_id st.sockets hnd s hs]
    by_cases h : s.userId = some u <;> simp [h]

theorem emitToOthers_reaches_exactly_the_others_witness :
    ("A" : String) ≠ "" ∧
    ∃ out, emitToOthers Ejemplo.unaConexion (some "A") "marcador:creado" (.otro "m1")
        = .ok out ∧
      (∀ e ∈ out, e.event = "marcador:creado" ∧ e.data = .otro "m1") ∧
      ∀ s ∈ Ejemplo.unaConexion.sockets,
        entregas Ejemplo.unaConexion.sockets out s.id "marcador:creado" (.otro "m1") =
          if s.userId = some "A" then 0 else 1 :=
  ⟨by decide,
    emitToOthers_reaches_exactly_the_others Ejemplo.db0 Ejemplo.unaConexion "A"
      "marcador:creado" (.otro "m1") (reachable_run Ejemplo.db0 _ _ Reachable.inicial)
      (by decide)⟩

theorem onUbicacionActual_ok (st : State) (socket : Socket) (data : UbicacionData)
    (env : Entorno) (lat lng : Int) (user_id : String)
    (hlat : numOrNull data.lat = some lat) (hlng : numOrNull data.lng = some lng)
    (huser : resolverUserId data.userId socket = some user_id) :
    (onUbicacionActual st socket data env).out =
      [{ destino := .broadcast socket.id, event := "ubicacion-usuario"
         data := .ubicacionUsuario user_id lat lng (numOr data.speed 0)
           (timestampOr data.timestamp env.now) }] ∧
    (onUbicacionActual st socket data env).st.ultimasUbicaciones =
      st.ultimasUbicaciones.set user_id
        { lat := lat, lng := lng, speed := numOr data.speed 0
          timestamp := timestampOr data.timestamp env.now } := by
  simp only [onUbicacionActual, hlat, hlng, huser, broadcastEmit, and_self]

/-- C8, counterexample. Connections 1 and 2 are both registered as "A".
Connection 1 sends a location-update that resolves to user "A"; connection 2,
whose `socket.userId` is "A", is handed 'ubicacion-usuario'. -/
theorem peer_location_reaches_same_user_on_other_socket :
    resolverUserId Ejemplo.ubi.userId Ejemplo.socket1A = some "A" ∧
    buscarSocket Ejemplo.dosSocketsA 1 = some Ejemplo.socket1A ∧
    buscarSocket Ejemplo.dosSocketsA 2 = some Ejemplo.socket2A ∧
    Ejemplo.socket2A.userId = some "A" ∧
    entregas Ejemplo.dosSocketsA.sockets
      (step Ejemplo.dosSocketsA (.ubicacionActual 1 Ejemplo.ubi (.sinErrores 7))).2
      2 "ubicacion-usuario" (.ubicacionUsuario "A" 10 20 0 7) = 1 := by
  decide

/-- C8, amended. In a reachable state, a location-update from the open
connection `sid` that carries lat and lng and resolves to user `user_id` makes
exactly one emit call, the broadcast of 'ubicacion-usuario' for `user_id`, and
the exclusion is by connection, not by user: the sending connection is not
handed the event and every other open connection is handed it once, whatever
its `socket.userId`. -/
theorem peer_location_excludes_sender_only (db : Db) (st : State) (sid : Nat)
    (socket : Socket) (data : UbicacionData) (env : Entorno) (lat lng : Int)
    (user_id : String) (hreach : Reachable db st)
    (hopen : buscarSocket st sid = some socket)
    (hlat : numOrNull data.lat = some lat) (hlng : numOrNull data.lng = some lng)
    (huser : resolverUserId data.userId socket = some user_id) :
    (step st (.ubicacionActual sid data env)).2 =
      [{ destino := .broadcast sid, event := "ubicacion-usuario"
         data := .ubicacionUsuario user_id lat lng (numOr data.speed 0)
           (timestampOr data.timestamp env.now) }] ∧
    ∀ s ∈ st.sockets,
      entregas st.sockets (step st (.ubicacionActual sid data env)).2 s.id
        "ubicacion-usuario"
        (.ubicacionUsuario user_id lat lng (numOr data.speed 0)
          (timestampOr data.timestamp env.now)) =
      if s.id = sid then 0 else 1 := by
  have hnd := (reachable_inv db st hreach).nodup
  obtain ⟨_, hsid⟩ := buscarSocket_some st sid socket hopen
  have hout : (step st (.ubicacionActual sid data env)).2 =
      [{ destino := .broadcast sid, event := "ubicacion-usuario"
         data := .ubicacionUsuario user_id lat lng (numOr data.speed 0)
           (timestampOr data.timestamp env.now) }] := by
    simp only [step, hopen, guardarSocket]
    rw [(onUbicacionActual_ok st socket data env lat lng user_id hlat hlng huser).1, hsid]
  refine ⟨hout, ?_⟩
  intro s hs
  rw [hout, entregas_uno, count_receptores st.sockets hnd _ s hs]
  by_cases h : s.id = sid <;> simp [Destino.alcanza, h]

theorem peer_location_excludes_sender_only_witness :
    (buscarSocket Ejemplo.dosSocketsA 1 = some Ejemplo.socket1A ∧
      numOrNull Ejemplo.ubi.lat = some 10 ∧ numOrNull Ejemplo.ubi.lng = some 20 ∧
      resolverUserId Ejemplo.ubi.userId Ejemplo.socket1A = some "A") ∧
    ((step Ejemplo.dosSocketsA (.ubicacionActual 1 Ejemplo.ubi (.sinErrores 7))).2 =
      [{ destino := .broadcast 1, event := "ubicacion-usuario"
         data := .ubicacionUsuario "A" 10 20 (numOr Ejemplo.ubi.speed 0)
           (timestampOr Ejemplo.ubi.timestamp (Entorno.sinErrores 7).now) }] ∧
    ∀ s ∈ Ejemplo.dosSocketsA.sockets,
      entregas Ejemplo.dosSocketsA.sockets
        (step Ejemplo.dosSocketsA (.ubicacionActual 1 Ejemplo.ubi (.sinErrores 7))).2 s.id
        "ubicacion-usuario"
        (.ubicacionUsuario "A" 10 20 (numOr Ejemplo.ubi.speed 0)
          (timestampOr Ejemplo.ubi.timestamp (Entorno.sinErrores 7).now)) =
      if s.id = 1 then 0 else 1) :=
  ⟨⟨by decide, by decide, by decide, by decide⟩,
    peer_location_excludes_sender_only Ejemplo.db0 Ejemplo.dosSocketsA 1 Ejemplo.socket1A
      Ejemplo.ubi (.sinErrores 7) 10 20 "A" (reachable_run Ejemplo.db0 _ _ Reachable.inicial)
      (by decide) (by decide) (by decide) (by decide)⟩

/-- C4, counterexample. In the reachable state `obsoletoA` the registry binds
"A" to connection 1, which is no longer open. Connection 2 registers as "A" and
`registrarOActualizarUsuario` throws: the binding of "A" has been deleted from
`userSocketMap`, so the registry is not as it was before the message. -/
theorem failed_register_after_stale_binding_mutates_registry :
    Reachable Ejemplo.db0 Ejemplo.obsoletoA ∧
    Ejemplo.envFallaRegistrar.errRegistrar = some "SQLITE_IOERR" ∧
    buscarSocket Ejemplo.obsoletoA 2 = some Ejemplo.socket2 ∧
    buscarSocket Ejemplo.obsoletoA 1 = none ∧
    Ejemplo.obsoletoA.userSocketMap = [("A", 1)] ∧
    (step Ejemplo.obsoletoA
      (.usuarioConectado 2 Ejemplo.regA Ejemplo.envFallaRegistrar)).1.userSocketMap = [] ∧
    (onUsuarioConectado Ejemplo.obsoletoA Ejemplo.socket2 Ejemplo.regA
      Ejemplo.envFallaRegistrar).st.userSocketMap ≠ Ejemplo.obsoletoA.userSocketMap :=
  ⟨reachable_run Ejemplo.db0 _ _ (reachable_run Ejemplo.db0 _ _ Reachable.inicial),
    rfl, by decide, by decide, by decide, by decide, by decide⟩

/-- C4, amended. On a registration for `id` from `socket`, if
`registrarOActualizarUsuario` throws with message `msg`, the handler makes
exactly one emit call, 'usuario-registrado' with `success = false` and `msg` to
`socket` itself (so no 'cliente-conectado'), and leaves `ultimasUbicaciones`,
the database and the open sockets as they were. `userSocketMap` and
`usuariosNotificados` are as they were when `id` had no binding or its bound
connection is still open; when the bound connection is no longer open they are
the previous maps with the entry of `id` deleted. -/
theorem failed_register_replies_failure (st : State) (socket : Socket)
    (data : RegistroData) (env : Entorno) (id msg : String)
    (hid : strOrNull data.id = some id) (herr : env.errRegistrar = some msg) :
    (onUsuarioConectado st socket data env).out =
      [{ destino := .socket socket.id, event := "usuario-registrado"
         data := .usuarioRegistrado false none none (some msg) }] ∧
    (onUsuarioConectado st socket data env).st.ultimasUbicaciones = st.ultimasUbicaciones ∧
    (onUsuarioConectado st socket data env).st.db = st.db ∧
    (onUsuarioConectado st socket data env).st.sockets = st.sockets ∧
    ((∀ a, st.userSocketMap.get id = some a → ∃ s ∈ st.sockets, s.id = a) →
      (onUsuarioConectado st socket data env).st.userSocketMap = st.userSocketMap ∧
      (onUsuarioConectado st socket data env).st.usuariosNotificados =
        st.usuariosNotificados) ∧
    ((∃ a, st.userSocketMap.get id = some a ∧ ∀ s ∈ st.sockets, s.id ≠ a) →
      (onUsuarioConectado st socket data env).st.userSocketMap =
        st.userSocketMap.delete id ∧
      (onUsuarioConectado st socket data env).st.usuariosNotificados =
        st.usuariosNotificados.delete id) := by
  rw [onUsuarioConectado_falla st socket data env id msg hid herr]
  have hf := verificar_frame st id
  refine ⟨rfl, hf.2.2.1, hf.2.2.2, hf.1, ?_, ?_⟩
  · intro hopen
    rcases verificar_cases st id with ⟨_, h⟩ | ⟨a, _, _, h⟩ | ⟨a, hget, hclosed, _⟩
    · simp [h]
    · simp [h]
    · obtain ⟨s, hs, hsa⟩ := hopen a hget
      exact absurd hsa (hclosed s hs)
  · rintro ⟨a, hget, hclosed⟩
    rcases verificar_cases st id with ⟨hnone, _⟩ | ⟨b, hget2, ⟨s, hs, hsb⟩, _⟩ | ⟨b, _, _, h⟩
    · rw [hnone] at hget
      cases hget
    · rw [hget] at hget2
      have hab : a = b := Option.some.inj hget2
      subst hab
      exact absurd hsb (hclosed s hs)
    · simp [h]

theorem failed_register_replies_failure_witness :
    (strOrNull Ejemplo.regA.id = some "A" ∧
      Ejemplo.envFallaRegistrar.errRegistrar = some "SQLITE_IOERR") ∧
    ((onUsuarioConectado Ejemplo.dosSocketsA Ejemplo.socket1A Ejemplo.regA
        Ejemplo.envFallaRegistrar).out =
      [{ destino := .socket Ejemplo.socket1A.id, event := "usuario-registrado"
         data := .usuarioRegistrado false none none (some "SQLITE_IOERR") }] ∧
    (onUsuarioConectado Ejemplo.dosSocketsA Ejemplo.socket1A Ejemplo.regA
      Ejemplo.envFallaRegistrar).st.ultimasUbicaciones =
        Ejemplo.dosSocketsA.ultimasUbicaciones ∧
    (onUsuarioConectado Ejemplo.dosSocketsA Ejemplo.socket1A Ejemplo.regA
      Ejemplo.envFallaRegistrar).st.db = Ejemplo.dosSocketsA.db ∧
    (onUsuarioConectado Ejemplo.dosSocketsA Ejemplo.socket1A Ejemplo.regA
      Ejemplo.envFallaRegistrar).st.sockets = Ejemplo.dosSocketsA.sockets ∧
    ((∀ a, Ejemplo.dosSocketsA.userSocketMap.get "A" = some a →
        ∃ s ∈ Ejemplo.dosSocketsA.sockets, s.id = a) →
      (onUsuarioConectado Ejemplo.dosSocketsA Ejemplo.socket1A Ejemplo.regA
        Ejemplo.envFallaRegistrar).st.userSocketMap = Ejemplo.dosSocketsA.userSocketMap ∧
      (onUsuarioConectado Ejemplo.dosSocketsA Ejemplo.socket1A Ejemplo.regA
        Ejemplo.envFallaRegistrar).st.usuariosNotificados =
        Ejemplo.dosSocketsA.usuariosNotificados) ∧
    ((∃ a, Ejemplo.dosSocketsA.userSocketMap.get "A" = some a ∧
        ∀ s ∈ Ejemplo.dosSocketsA.sockets, s.id ≠ a) →
      (onUsuarioConectado Ejemplo.dosSocketsA Ejemplo.socket1A Ejemplo.regA
        Ejemplo.envFallaRegistrar).st.userSocketMap =
        Ejemplo.dosSocketsA.userSocketMap.delete "A" ∧
      (onUsuarioConectado Ejemplo.dosSocketsA Ejemplo.socket1A Ejemplo.regA
        Ejemplo.envFallaRegistrar).st.usuariosNotificados =
        Ejemplo.dosSocketsA.usuariosNotificados.delete "A")) :=
  ⟨⟨by decide, rfl⟩,
    failed_register_replies_failure Ejemplo.dosSocketsA Ejemplo.socket1A Ejemplo.regA
      Ejemplo.envFallaRegistrar "A" "SQLITE_IOERR" (by decide) rfl⟩

theorem ubicacionesExistentes_claves (m : JsMap String Ubicacion) (now : Nat) :
    (ubicacionesExistentes m now).map (fun u => (u.userId, u.lat, u.lng)) =
      m.map (fun e => (e.1, e.2.lat, e.2.lng)) := by
  simp [ubicacionesExistentes]

/-- C9, counterexample. A first registration on a server whose
`ultimasUbicaciones` is empty succeeds, and the handler emits the join broadcast
and the 'usuario-registrado' reply only: no 'ubicaciones-usuarios-conectados'
message is sent, not even one carrying the empty sequence. -/
theorem register_with_empty_cache_sends_no_snapshot :
    Ejemplo.unaConexion.ultimasUbicaciones = [] ∧
    buscarSocket Ejemplo.unaConexion 1 = some Ejemplo.socket1 ∧
    (onUsuarioConectado Ejemplo.unaConexion Ejemplo.socket1 Ejemplo.regA
      (.sinErrores 5)).out =
      [{ destino := .broadcast 1, event := "cliente-conectado"
         data := .clienteConectado "A" (some 1) none "web" 5 },
       { destino := .socket 1, event := "usuario-registrado"
         data := .usuarioRegistrado true (some "A")
           (some { id := "A", num_usuario := some 1, nombre := none
                   plataforma := some "web", modelo_dispositivo := none
                   fecha_registro := 5, ultima_conexion := 5 }) none }] := by
  decide

/-- C9, amended. Every successful registration for `id` (neither Store call
throws), fresh join or duplicate, emits after the join broadcast, if any, the
reply 'usuario-registrado' with `success = true` and `userId = id` to the
registering socket. When `ultimasUbicaciones` is not empty the reply is followed
by one 'ubicaciones-usuarios-conectados' message to the same socket carrying one
element per entry of `ultimasUbicaciones`, in map order, with that entry's user
id, lat and lng; when it is empty nothing follows the reply. -/
theorem successful_register_reply_then_snapshot (st : State) (socket : Socket)
    (data : RegistroData) (env : Entorno) (id : String)
    (hid : strOrNull data.id = some id) (hreg : env.errRegistrar = none)
    (hget : env.errGetUsuario = none) :
    ∃ joins fila snapshot,
      (∀ e ∈ joins, e.event = "cliente-conectado") ∧
      (onUsuarioConectado st socket data env).out =
        joins ++
          ({ destino := .socket socket.id, event := "usuario-registrado"
             data := .usuarioRegistrado true (some id) fila none } ::
            (if st.ultimasUbicaciones.size = 0 then []
             else [{ destino := .socket socket.id
                     event := "ubicaciones-usuarios-conectados"
                     data := .ubicacionesUsuariosConectados snapshot }])) ∧
      snapshot.map (fun u => (u.userId, u.lat, u.lng)) =
        st.ultimasUbicaciones.map (fun e => (e.1, e.2.lat, e.2.lng)) ∧
      snapshot.length = st.ultimasUbicaciones.size := by
  obtain ⟨db2, usuario, _, _, _, hout⟩ := onUsuarioConectado_ok st socket data env id hid hreg
  refine ⟨(if (verificarConexionAnterior st id).2 then []
      else [{ destino := .broadcast socket.id, event := "cliente-conectado"
              data := .clienteConectado id (numOrNull usuario.row.num_usuario)
                (strOrNull data.nombre) (strOr data.plataforma "web") env.now }]),
    selectUsuario db2 id, ubicacionesExistentes st.ultimasUbicaciones env.now, ?_, ?_,
    ubicacionesExistentes_claves _ _, by simp [ubicacionesExistentes, JsMap.size]⟩
  · intro e he
    split at he
    · cases he
    · simp only [List.mem_singleton] at he
      rw [he]
  · rw [hout, hget]
    simp only [getUsuarioById]
    congr 2
    by_cases hz : st.ultimasUbicaciones.size = 0
    · simp [hz]
    · have : st.ultimasUbicaciones.size > 0 := Nat.pos_of_ne_zero hz
      simp [hz, this]

theorem successful_register_reply_then_snapshot_witness :
    (strOrNull Ejemplo.regB.id = some "B" ∧
      (Entorno.sinErrores 8).errRegistrar = none ∧
      (Entorno.sinErrores 8).errGetUsuario = none) ∧
    ∃ joins fila snapshot,
      (∀ e ∈ joins, e.event = "cliente-conectado") ∧
      (onUsuarioConectado Ejemplo.conUbicacion Ejemplo.socket1A Ejemplo.regB
        (.sinErrores 8)).out =
        joins ++
          ({ destino := .socket Ejemplo.socket1A.id, event := "usuario-registrado"
             data := .usuarioRegistrado true (some "B") fila none } ::
            (if Ejemplo.conUbicacion.ultimasUbicaciones.size = 0 then []
             else [{ destino := .socket Ejemplo.socket1A.id
                     event := "ubicaciones-usuarios-conectados"
                     data := .ubicacionesUsuariosConectados snapshot }])) ∧
      snapshot.map (fun u => (u.userId, u.lat, u.lng)) =
        Ejemplo.conUbicacion.ultimasUbicaciones.map (fun e => (e.1, e.2.lat, e.2.lng)) ∧
      snapshot.length = Ejemplo.conUbicacion.ultimasUbicaciones.size :=
  ⟨⟨by decide, rfl, rfl⟩,
    successful_register_reply_then_snapshot Ejemplo.conUbicacion Ejemplo.socket1A Ejemplo.regB
      (.sinErrores 8) "B" (by decide) rfl rfl⟩

/-- C10, counterexample. Connection 1 sends a gps-sample with lat and lng while
another connection is open and `saveCoordenadaGPS` throws: the handler makes no
emit call, so 'coordenada:nueva' is not broadcast. -/
theorem gps_sample_store_failure_suppresses_broadcast :
    Ejemplo.envFallaSave.errSave = some "SQLITE_IOERR" ∧
    numOrNull Ejemplo.muestra.lat = some 10 ∧ numOrNull Ejemplo.muestra.lng = some 20 ∧
    buscarSocket Ejemplo.dosSocketsA 1 = some Ejemplo.socket1A ∧
    (buscarSocket Ejemplo.dosSocketsA 2).isSome = true ∧
    (step Ejemplo.dosSocketsA
      (.coordenadaActualizar 1 Ejemplo.muestra Ejemplo.envFallaSave)).2 = [] ∧
    (step Ejemplo.dosSocketsA
      (.coordenadaActualizar 1 Ejemplo.muestra (.sinErrores 9))).2 =
      [{ destino := .broadcast 1, event := "coordenada:nueva"
         data := .coordenadaNueva 1 10 20 none (some "A") (some 1) (some "web") 9 }] := by
  decide

/-- C10, amended. For every gps-sample carrying lat and lng, when
`saveCoordenadaGPS` returns row id `rowid` the handler makes exactly one emit
call, the broadcast of 'coordenada:nueva' with that row id to the other
connections, also when the later `getUsuarioById` throws; when
`saveCoordenadaGPS` throws the handler returns the state unchanged and makes no
emit call. -/
theorem gps_sample_broadcast_follows_store (st : State) (socket : Socket)
    (data : CoordenadaMsg) (env : Entorno) (lat lng : Int)
    (hlat : numOrNull data.lat = some lat) (hlng : numOrNull data.lng = some lng) :
    (∀ db2 rowid,
      saveCoordenadaGPS st.db
        { user_id := resolverUserId data.userId socket, lat := lat, lng := lng
          accuracy := data.accuracy, timestamp := env.now } env.errSave = .ok (db2, rowid) →
      ∃ num plat,
        (onCoordenadaActualizar st socket data env).out =
          [{ destino := .broadcast socket.id, event := "coordenada:nueva"
             data := .coordenadaNueva rowid lat lng data.accuracy
               (resolverUserId data.userId socket) num plat env.now }]) ∧
    (∀ msg,
      saveCoordenadaGPS st.db
        { user_id := resolverUserId data.userId socket, lat := lat, lng := lng
          accuracy := data.accuracy, timestamp := env.now } env.errSave = .error msg →
      (onCoordenadaActualizar st socket data env).out = [] ∧
      (onCoordenadaActualizar st socket data env).st = st) := by
  constructor
  · intro db2 rowid hsave
    simp only [onCoordenadaActualizar, hlat, hlng, hsave, broadcastEmit]
    exact ⟨_, _, rfl⟩
  · intro msg hsave
    simp only [onCoordenadaActualizar, hlat, hlng, hsave, and_self]

theorem gps_sample_broadcast_follows_store_witness :
    (numOrNull Ejemplo.muestra.lat = some 10 ∧ numOrNull Ejemplo.muestra.lng = some 20) ∧
    ((∀ db2 rowid,
      saveCoordenadaGPS Ejemplo.dosSocketsA.db
        { user_id := resolverUserId Ejemplo.muestra.userId Ejemplo.socket1A
          lat := 10, lng := 20, accuracy := Ejemplo.muestra.accuracy
          timestamp := Ejemplo.envFallaSave.now } Ejemplo.envFallaSave.errSave
        = .ok (db2, rowid) →
      ∃ num plat,
        (onCoordenadaActualizar Ejemplo.dosSocketsA Ejemplo.socket1A Ejemplo.muestra
          Ejemplo.envFallaSave).out =
          [{ destino := .broadcast Ejemplo.socket1A.id, event := "coordenada:nueva"
             data := .coordenadaNueva rowid 10 20 Ejemplo.muestra.accuracy
               (resolverUserId Ejemplo.muestra.userId Ejemplo.socket1A) num plat
               Ejemplo.envFallaSave.now }]) ∧
    (∀ msg,
      saveCoordenadaGPS Ejemplo.dosSocketsA.db
        { user_id := resolverUserId Ejemplo.muestra.userId Ejemplo.socket1A
          lat := 10, lng := 20, accuracy := Ejemplo.muestra.accuracy
          timestamp := Ejemplo.envFallaSave.now } Ejemplo.envFallaSave.errSave
        = .error msg →
      (onCoordenadaActualizar Ejemplo.dosSocketsA Ejemplo.socket1A Ejemplo.muestra
        Ejemplo.envFallaSave).out = [] ∧
      (onCoordenadaActualizar Ejemplo.dosSocketsA Ejemplo.socket1A Ejemplo.muestra
        Ejemplo.envFallaSave).st = Ejemplo.dosSocketsA)) :=
  ⟨⟨by decide, by decide⟩,
    gps_sample_broadcast_follows_store Ejemplo.dosSocketsA Ejemplo.socket1A Ejemplo.muestra
      Ejemplo.envFallaSave 10 20 (by decide) (by decide)⟩

/-- C5, the code at the failing input. A connection that never registered sends
a location-update naming user "X" and then closes. No connection is open and
the registry is empty, yet `ultimasUbicaciones` keeps an entry for "X". -/
theorem location_of_unregistered_user_outlives_connection :
    Reachable Ejemplo.db0
      (run (State.inicial Ejemplo.db0)
        [.connection, .ubicacionActual 1 Ejemplo.ubiX (.sinErrores 5), .disconnect 1 6]).1 ∧
    (run (State.inicial Ejemplo.db0)
      [.connection, .ubicacionActual 1 Ejemplo.ubiX (.sinErrores 5),
       .disconnect 1 6]).1.ultimasUbicaciones.has "X" = true ∧
    (run (State.inicial Ejemplo.db0)
      [.connection, .ubicacionActual 1 Ejemplo.ubiX (.sinErrores 5),
       .disconnect 1 6]).1.userSocketMap = [] ∧
    (run (State.inicial Ejemplo.db0)
      [.connection, .ubicacionActual 1 Ejemplo.ubiX (.sinErrores 5),
       .disconnect 1 6]).1.sockets = [] :=
  ⟨reachable_run Ejemplo.db0 _ _ Reachable.inicial, by decide, by decide, by decide⟩

theorem ligadoAbierto_iff (st : State) (id : String) :
    ligadoAbierto st id = true ↔
      ∃ a, st.userSocketMap.get id = some a ∧ a ∈ st.sockets.map (fun s => s.id) := by
  unfold ligadoAbierto
  cases h : st.userSocketMap.get id with
  | none => simp
  | some a => simp

theorem verificar_ligado (st : State) (id : String) (h : ligadoAbierto st id = true) :
    verificarConexionAnterior st id = (st, true) := by
  obtain ⟨a, hget, hopen⟩ := (ligadoAbierto_iff st id).mp h
  obtain ⟨s, hs, hsa⟩ := List.mem_map.mp hopen
  rcases verificar_cases st id with ⟨hnone, _⟩ | ⟨_, _, _, h2⟩ | ⟨b, hget2, hclosed, _⟩
  · rw [hnone] at hget
    cases hget
  · exact h2
  · rw [hget] at hget2
    have hab : a = b := Option.some.inj hget2
    subst hab
    exact absurd hsa (hclosed s hs)

theorem verificar_get_ne (st : State) (id k : String) (hne : k ≠ id) :
    (verificarConexionAnterior st id).1.userSocketMap.get k = st.userSocketMap.get k := by
  rcases verificar_cases st id with ⟨_, h⟩ | ⟨_, _, _, h⟩ | ⟨_, _, _, h⟩
  · rw [h]
  · rw [h]
  · rw [h]
    exact JsMap.get_delete_ne _ _ _ hne

theorem registrado_ne_conectado : ("usuario-registrado" : String) ≠ "cliente-conectado" := by
  decide

theorem ubicaciones_ne_conectado :
    ("ubicaciones-usuarios-conectados" : String) ≠ "cliente-conectado" := by
  decide

/-- The 'cliente-conectado' calls of one run of the registration handler. -/
theorem onUsuarioConectado_joins (st : State) (socket : Socket) (data : RegistroData)
    (env : Entorno) :
    (∀ e ∈ (onUsuarioConectado st socket data env).out,
      e.event = "cliente-conectado" ∨ (∃ id, esJoinDe id e = true) →
      ∃ id, strOrNull data.id = some id ∧ env.errRegistrar = none ∧
        (verificarConexionAnterior st id).2 = false ∧
        ∀ k, esJoinDe k e = true → k = id) ∧
    ∀ k, ((onUsuarioConectado st socket data env).out.filter (esJoinDe k)).length ≤ 1 := by
  cases hid : strOrNull data.id with
  | none =>
    rw [onUsuarioConectado_sin_id st socket data env hid]
    simp
  | some id =>
    cases herr : env.errRegistrar with
    | some msg =>
      rw [onUsuarioConectado_falla st socket data env id msg hid herr]
      constructor
      · intro e he hj
        simp only [List.mem_singleton] at he
        subst he
        rcases hj with hj | ⟨k, hj⟩
        · exact absurd hj registrado_ne_conectado
        · simp [esJoinDe] at hj
      · intro k
        simp [esJoinDe]
    | none =>
      obtain ⟨db2, u, _, _, _, hout⟩ := onUsuarioConectado_ok st socket data env id hid herr
      rw [hout]
      have htail : ∀ e ∈ (match getUsuarioById db2 id env.errGetUsuario with
          | .error msg =>
            [{ destino := .socket socket.id, event := "usuario-registrado"
               data := .usuarioRegistrado false none none (some msg) }]
          | .ok fila =>
            { destino := .socket socket.id, event := "usuario-registrado"
              data := .usuarioRegistrado true (some id) fila none } ::
            (if st.ultimasUbicaciones.size > 0 then
              [{ destino := .socket socket.id, event := "ubicaciones-usuarios-conectados"
                 data := .ubicacionesUsuariosConectados
                   (ubicacionesExistentes st.ultimasUbicaciones env.now) }]
             else []) : List Emit),
          e.event ≠ "cliente-conectado" ∧ ∀ k, esJoinDe k e = false := by
        intro e he
        split at he
        · simp only [List.mem_singleton] at he
          subst he
          exact ⟨registrado_ne_conectado, fun k => rfl⟩
        · simp only [List.mem_cons] at he
          rcases he with he | he
          · subst he
            exact ⟨registrado_ne_conectado, fun k => rfl⟩
          · split at he
            · simp only [List.mem_singleton] at he
              subst he
              exact ⟨ubicaciones_ne_conectado, fun k => rfl⟩
            · cases he
      constructor
      · intro e he hj
        rcases List.mem_append.mp he with he | he
        · cases hya : (verificarConexionAnterior st id).2 with
          | true => simp [hya] at he
          | false =>
            simp only [hya, Bool.false_eq_true, ↓reduceIte, List.mem_singleton] at he
            subst he
            refine ⟨id, rfl, rfl, hya, ?_⟩
            intro k hk
            simp only [esJoinDe, Bool.and_eq_true, decide_eq_true_eq] at hk
            exact hk.2.symm
        · have := htail e he
          rcases hj with hj | ⟨k, hj⟩
          · exact absurd hj this.1
          · rw [this.2 k] at hj
            cases hj
      · intro k
        rw [List.filter_append]
        have hz : List.filter (esJoinDe k) (match getUsuarioById db2 id env.errGetUsuario with
          | .error msg =>
            [{ destino := .socket socket.id, event := "usuario-registrado"
               data := .usuarioRegistrado false none none (some msg) }]
          | .ok fila =>
            { destino := .socket socket.id, event := "usuario-registrado"
              data := .usuarioRegistrado true (some id) fila none } ::
            (if st.ultimasUbicaciones.size > 0 then
              [{ destino := .socket socket.id, event := "ubicaciones-usuarios-conectados"
                 data := .ubicacionesUsuariosConectados
                   (ubicacionesExistentes st.ultimasUbicaciones env.now) }]
             else []) : List Emit) = [] := by
          rw [List.filter_eq_nil_iff]
          intro e he
          simp [(htail e he).2 k]
        rw [hz, List.append_nil]
        refine le_trans (List.length_filter_le _ _) ?_
        split <;> simp

theorem onCoordenadaActualizar_sin_join (st : State) (socket : Socket)
    (data : CoordenadaMsg) (env : Entorno) (k : String) :
    ∀ e ∈ (onCoordenadaActualizar st socket data env).out, esJoinDe k e = false := by
  unfold onCoordenadaActualizar
  intro e he
  split at he
  · dsimp only at he
    split at he
    · cases he
    · simp only [broadcastEmit, List.mem_singleton] at he
      subst he
      rfl
  · cases he

theorem onUbicacionActual_sin_join (st : State) (socket : Socket)
    (data : UbicacionData) (env : Entorno) (k : String) :
    ∀ e ∈ (onUbicacionActual st socket data env).out, esJoinDe k e = false := by
  unfold onUbicacionActual
  intro e he
  split at he
  · split at he
    · cases he
    · simp only [broadcastEmit, List.mem_singleton] at he
      subst he
      rfl
  · cases he

theorem onDisconnect_sin_join (st : State) (socket : Socket) (now : Nat) (k : String) :
    ∀ e ∈ (onDisconnect st socket now).out, esJoinDe k e = false := by
  intro e he
  by_cases hc : ∀ u, strOrNull socket.userId = some u →
      st.userSocketMap.get u ≠ some socket.id
  · rw [onDisconnect_noop st socket now hc] at he
    cases he
  · push_neg at hc
    obtain ⟨u, hu, hb⟩ := hc
    rw [(onDisconnect_vigente st socket now u hu hb).2] at he
    split at he
    · split at he
      · simp only [List.mem_singleton] at he
        subst he
        rfl
      · cases he
    · cases he

/-- A turn of the event loop emits a 'cliente-conectado' for `k` only when it
handles a registration for `k` whose Store call succeeds and whose reconnection
check found no open connection on record; it emits at most one. -/
theorem step_joins (st : State) (ev : Evento) (k : String) :
    (∀ e ∈ (step st ev).2, esJoinDe k e = true →
      ∃ sid data env socket, ev = .usuarioConectado sid data env ∧
        buscarSocket st sid = some socket ∧ strOrNull data.id = some k ∧
        env.errRegistrar = none ∧ (verificarConexionAnterior st k).2 = false) ∧
    ((step st ev).2.filter (esJoinDe k)).length ≤ 1 := by
  have hnil : ∀ out : List Emit, (∀ e ∈ out, esJoinDe k e = false) →
      (∀ e ∈ out, esJoinDe k e = true →
        ∃ sid data env socket, ev = .usuarioConectado sid data env ∧
          buscarSocket st sid = some socket ∧ strOrNull data.id = some k ∧
          env.errRegistrar = none ∧ (verificarConexionAnterior st k).2 = false) ∧
      (out.filter (esJoinDe k)).length ≤ 1 := by
    intro out h
    constructor
    · intro e he hj
      rw [h e he] at hj
      cases hj
    · have : out.filter (esJoinDe k) = [] := by
        rw [List.filter_eq_nil_iff]
        intro e he
        simp [h e he]
      simp [this]
  cases ev with
  | connection =>
    apply hnil
    intro e he
    simp only [step, socketEmit, List.mem_singleton] at he
    subst he
    rfl
  | usuarioConectado sid data env =>
    cases hb : buscarSocket st sid with
    | none =>
      simp only [step, hb]
      exact hnil [] (fun e he => by cases he)
    | some socket =>
      simp only [step, hb, guardarSocket]
      have hj := onUsuarioConectado_joins st socket data env
      refine ⟨?_, hj.2 k⟩
      intro e he hk
      obtain ⟨id, hid, herr, hya, hkid⟩ := hj.1 e he (Or.inr ⟨k, hk⟩)
      have := hkid k hk
      subst this
      exact ⟨sid, data, env, socket, rfl, hb, hid, herr, hya⟩
  | coordenadaActualizar sid data env =>
    cases hb : buscarSocket st sid with
    | none =>
      simp only [step, hb]
      exact hnil [] (fun e he => by cases he)
    | some socket =>
      simp only [step, hb, guardarSocket]
      exact hnil _ (onCoordenadaActualizar_sin_join st socket data env k)
  | ubicacionActual sid data env =>
    cases hb : buscarSocket st sid with
    | none =>
      simp only [step, hb]
      exact hnil [] (fun e he => by cases he)
    | some socket =>
      simp only [step, hb, guardarSocket]
      exact hnil _ (onUbicacionActual_sin_join st socket data env k)
  | disconnect sid now =>
    cases hb : buscarSocket st sid with
    | none =>
      simp only [step, hb]
      exact hnil [] (fun e he => by cases he)
    | some socket =>
      simp only [step, hb]
      exact hnil _ (onDisconnect_sin_join _ socket now k)

theorem guardar_ids (st : State) (r : Resultado) (hsock : r.st.sockets = st.sockets) :
    (guardarSocket r).1.sockets.map (fun s => s.id) = st.sockets.map (fun s => s.id) := by
  simp only [guardarSocket, hsock]
  exact map_id_reemplazo st.sockets r.socket r.socket.id rfl

/-- After a registration for `id` whose Store call succeeds, the registry binds
`id` to the registering connection, which is open. -/
theorem step_registro_liga (st : State) (sid : Nat) (socket : Socket) (data : RegistroData)
    (env : Entorno) (id : String) (hb : buscarSocket st sid = some socket)
    (hid : strOrNull data.id = some id) (herr : env.errRegistrar = none) :
    ligadoAbierto (step st (.usuarioConectado sid data env)).1 id = true := by
  obtain ⟨hmem, hsid⟩ := buscarSocket_some st sid socket hb
  rw [ligadoAbierto_iff]
  refine ⟨socket.id, ?_, ?_⟩
  · obtain ⟨db2, u, _, _, hst, _⟩ := onUsuarioConectado_ok st socket data env id hid herr
    simp only [step, hb, guardarSocket]
    rw [hst]
    exact JsMap.get_set_self _ _ _
  · simp only [step, hb]
    rw [guardar_ids st _ (onUsuarioConectado_frame st socket data env).1]
    exact List.mem_map_of_mem _ hmem

/-- A turn of the event loop that does not close the connection bound to `id`
keeps `id` bound to an open connection. -/
theorem step_ligado (st : State) (ev : Evento) (id : String)
    (hlig : ligadoAbierto st id = true) (hno : cierraLigado st id ev = false) :
    ligadoAbierto (step st ev).1 id = true := by
  obtain ⟨a, hget, hopen⟩ := (ligadoAbierto_iff st id).mp hlig
  cases ev with
  | connection =>
    rw [ligadoAbierto_iff]
    refine ⟨a, hget, ?_⟩
    simp only [step, List.map_append, List.mem_append]
    exact Or.inl hopen
  | usuarioConectado sid data env =>
    cases hb : buscarSocket st sid with
    | none =>
      simp only [step, hb]
      exact hlig
    | some socket =>
      cases hid : strOrNull data.id with
      | none =>
        rw [ligadoAbierto_iff]
        refine ⟨a, ?_, ?_⟩
        · simp only [step, hb, guardarSocket]
          rw [onUsuarioConectado_sin_id st socket data env hid]
          exact hget
        · simp only [step, hb]
          rw [guardar_ids st _ (onUsuarioConectado_frame st socket data env).1]
          exact hopen
      | some id2 =>
        cases herr : env.errRegistrar with
        | none =>
          by_cases hk : id2 = id
          · subst hk
            exact step_registro_liga st sid socket data env id2 hb hid herr
          · rw [ligadoAbierto_iff]
            refine ⟨a, ?_, ?_⟩
            · obtain ⟨db2, u, _, _, hst, _⟩ :=
                onUsuarioConectado_ok st socket data env id2 hid herr
              simp only [step, hb, guardarSocket]
              rw [hst]
              have hne : id ≠ id2 := fun h => hk h.symm
              simp only
              rw [JsMap.get_set_ne _ _ _ _ hne, verificar_get_ne st id2 id hne]
              exact hget
            · simp only [step, hb]
              rw [guardar_ids st _ (onUsuarioConectado_frame st socket data env).1]
              exact hopen
        | some msg =>
          rw [ligadoAbierto_iff]
          refine ⟨a, ?_, ?_⟩
          · simp only [step, hb, guardarSocket]
            rw [onUsuarioConectado_falla st socket data env id2 msg hid herr]
            by_cases hk : id2 = id
            · subst hk
              simp only [verificar_ligado st id2 hlig]
              exact hget
            · have hne : id ≠ id2 := fun h => hk h.symm
              simp only
              rw [verificar_get_ne st id2 id hne]
              exact hget
          · simp only [step, hb]
            rw [guardar_ids st _ (onUsuarioConectado_frame st socket data env).1]
            exact hopen
  | coordenadaActualizar sid data env =>
    cases hb : buscarSocket st sid with
    | none =>
      simp only [step, hb]
      exact hlig
    | some socket =>
      have hf := onCoordenadaActualizar_frame st socket data env
      rw [ligadoAbierto_iff]
      refine ⟨a, ?_, ?_⟩
      · simp only [step, hb, guardarSocket]
        rw [hf.2.2.2.1]
        exact hget
      · simp only [step, hb]
        rw [guardar_ids st _ hf.2.1]
        exact hopen
  | ubicacionActual sid data env =>
    cases hb : buscarSocket st sid with
    | none =>
      simp only [step, hb]
      exact hlig
    | some socket =>
      have hf := onUbicacionActual_frame st socket data env
      rw [ligadoAbierto_iff]
      refine ⟨a, ?_, ?_⟩
      · simp only [step, hb, guardarSocket]
        rw [hf.2.2.2.1]
        exact hget
      · simp only [step, hb]
        rw [guardar_ids st _ hf.2.1]
        exact hopen
  | disconnect sid now =>
    cases hb : buscarSocket st sid with
    | none =>
      simp only [step, hb]
      exact hlig
    | some socket =>
      obtain ⟨_, hsid⟩ := buscarSocket_some st sid socket hb
      have hne : st.userSocketMap.get id ≠ some sid := by
        simpa [cierraLigado] using hno
      have ha : a ≠ sid := by
        intro h
        apply hne
        rw [hget, h]
      have hopen2 : a ∈ (st.sockets.filter (fun s => s.id ≠ sid)).map (fun s => s.id) := by
        obtain ⟨s, hs, hsa⟩ := List.mem_map.mp hopen
        refine List.mem_map.mpr ⟨s, List.mem_filter.mpr ⟨hs, ?_⟩, hsa⟩
        simp [hsa, ha]
      rw [ligadoAbierto_iff]
      simp only [step, hb]
      by_cases hc : ∀ u, strOrNull socket.userId = some u →
          st.userSocketMap.get u ≠ some socket.id
      · rw [onDisconnect_noop
          { st with sockets := st.sockets.filter (fun s => s.id ≠ sid) } socket now hc]
        exact ⟨a, hget, hopen2⟩
      · push_neg at hc
        obtain ⟨u, hu, hbu⟩ := hc
        have hv := (onDisconnect_vigente
          { st with sockets := st.sockets.filter (fun s => s.id ≠ sid) } socket now u hu hbu).1
        rw [hv]
        have hidu : id ≠ u := by
          intro h
          apply hne
          rw [h, hbu, hsid]
        exact ⟨a, by simpa [JsMap.get_delete_ne _ _ _ hidu] using hget, hopen2⟩

/-- While `id` is bound to an open connection, a turn of the event loop emits no
'cliente-conectado' for `id`. -/
theorem step_ligado_sin_join (st : State) (ev : Evento) (id : String)
    (hlig : ligadoAbierto st id = true) :
    ∀ e ∈ (step st ev).2, esJoinDe id e = false := by
  intro e he
  cases hj : esJoinDe id e with
  | false => rfl
  | true =>
    obtain ⟨_, _, _, _, _, _, _, _, hya⟩ := (step_joins st ev id).1 e he hj
    rw [verificar_ligado st id hlig] at hya
    cases hya

theorem run_ligado_sin_join (id : String) (evs : List Evento) :
    ∀ st, ligadoAbierto st id = true → sinCierre id st evs = true →
      ∀ e ∈ (run st evs).2, esJoinDe id e = false := by
  induction evs with
  | nil =>
    intro st _ _ e he
    cases he
  | cons ev rest ih =>
    intro st hlig hsin e he
    simp only [sinCierre, Bool.and_eq_true, Bool.not_eq_true'] at hsin
    simp only [run, List.mem_append] at he
    rcases he with he | he
    · exact step_ligado_sin_join st ev id hlig e he
    · exact ih (step st ev).1 (step_ligado st ev id hlig hsin.1) hsin.2 e he

theorem run_a_lo_sumo_un_join (id : String) (evs : List Evento) :
    ∀ st, sinCierre id st evs = true →
      ((run st evs).2.filter (esJoinDe id)).length ≤ 1 := by
  induction evs with
  | nil =>
    intro st _
    simp [run]
  | cons ev rest ih =>
    intro st hsin
    simp only [sinCierre, Bool.and_eq_true, Bool.not_eq_true'] at hsin
    simp only [run, List.filter_append, List.length_append]
    have hstep := step_joins st ev id
    by_cases hz : (step st ev).2.filter (esJoinDe id) = []
    · rw [hz]
      simpa using ih (step st ev).1 hsin.2
    · obtain ⟨e, he⟩ := List.exists_mem_of_ne_nil _ hz
      obtain ⟨hmem, hj⟩ := List.mem_filter.mp he
      obtain ⟨sid, data, env, socket, hev, hb, hid, herr, _⟩ := hstep.1 e hmem hj
      have hlig : ligadoAbierto (step st ev).1 id = true := by
        rw [hev]
        exact step_registro_liga st sid socket data env id hb hid herr
      have hrest : (run (step st ev).1 rest).2.filter (esJoinDe id) = [] := by
        rw [List.filter_eq_nil_iff]
        intro e2 he2
        simp [run_ligado_sin_join id rest (step st ev).1 hlig hsin.2 e2 he2]
      rw [hrest]
      simpa using hstep.2

/-- Joins in runs without interleaving. Let `evs` be a run from `st` in which
every handler run completes before the next event and no event closes the
connection the registry binds `id` to. If in `st` the registry binds `id` to a
connection that is still open, then handling a further 'usuario-conectado' for
`id`, from any socket and whatever the Store answers, makes no
'cliente-conectado' emit call, and the whole run emits no 'cliente-conectado'
for `id`. From any `st`, such a run emits at most one 'cliente-conectado' for
`id`. Runs in which two registration handlers overlap at
`await io.fetchSockets()` are outside this statement. -/
theorem no_duplicate_join (st : State) (id : String) (evs : List Evento)
    (hsin : sinCierre id st evs = true) :
    (ligadoAbierto st id = true →
      (∀ socket data env, strOrNull data.id = some id →
        ∀ e ∈ (onUsuarioConectado st socket data env).out, e.event ≠ "cliente-conectado") ∧
      (∀ e ∈ (run st evs).2, esJoinDe id e = false)) ∧
    ((run st evs).2.filter (esJoinDe id)).length ≤ 1 := by
  refine ⟨fun hlig => ⟨?_, run_ligado_sin_join id evs st hlig hsin⟩,
    run_a_lo_sumo_un_join id evs st hsin⟩
  intro socket data env hid e he hev
  obtain ⟨id2, hid2, _, hya, _⟩ :=
    (onUsuarioConectado_joins st socket data env).1 e he (Or.inl hev)
  rw [hid] at hid2
  have : id = id2 := Option.some.inj hid2
  subst this
  rw [verificar_ligado st id hlig] at hya
  cases hya

theorem no_duplicate_join_witness :
    sinCierre "A" Ejemplo.dosSocketsA
      [.usuarioConectado 2 Ejemplo.regA (.sinErrores 9), .disconnect 1 10,
       .usuarioConectado 2 Ejemplo.regA (.sinErrores 11)] = true ∧
    ligadoAbierto Ejemplo.dosSocketsA "A" = true ∧
    ((ligadoAbierto Ejemplo.dosSocketsA "A" = true →
      (∀ socket data env, strOrNull data.id = some "A" →
        ∀ e ∈ (onUsuarioConectado Ejemplo.dosSocketsA socket data env).out,
          e.event ≠ "cliente-conectado") ∧
      (∀ e ∈ (run Ejemplo.dosSocketsA
          [.usuarioConectado 2 Ejemplo.regA (.sinErrores 9), .disconnect 1 10,
           .usuarioConectado 2 Ejemplo.regA (.sinErrores 11)]).2,
        esJoinDe "A" e = false)) ∧
    ((run Ejemplo.dosSocketsA
        [.usuarioConectado 2 Ejemplo.regA (.sinErrores 9), .disconnect 1 10,
         .usuarioConectado 2 Ejemplo.regA (.sinErrores 11)]).2.filter
      (esJoinDe "A")).length ≤ 1) :=
  ⟨by decide, by decide,
    no_duplicate_join Ejemplo.dosSocketsA "A"
      [.usuarioConectado 2 Ejemplo.regA (.sinErrores 9), .disconnect 1 10,
       .usuarioConectado 2 Ejemplo.regA (.sinErrores 11)] (by decide)⟩

theorem numOr_cero (s : Option Int) : numOr s 0 = s.getD 0 := by
  cases s with
  | none => rfl
  | some v =>
    by_cases h : v = 0
    · subst h
      rfl
    · simp [numOr, numOrNull, h]

theorem numOrNull_of_ne (v : Int) (h : v ≠ 0) : numOrNull (some v) = some v := by
  simp [numOrNull, h]

/-- C11. In a reachable state, for every location-update from the open
connection `sid` that carries a non-zero lat and lng and whose user id
`user_id` comes from the payload or, when the payload has none, from
`socket.userId`: whatever the Store does (`env` is arbitrary, so
`saveCoordenadaGPS` may succeed or throw) and whatever `ultimasUbicaciones` held
before, afterwards the entry of `user_id` is the message's lat, lng, speed (0
when absent) and timestamp (the clock reading when absent or 0), the handler
makes exactly one emit call, 'ubicacion-usuario' with the same userId, lat, lng,
speed and timestamp, and that call is handed once to every open connection
other than the sender and not to the sender. -/
theorem location_update_overwrites_and_broadcasts (db : Db) (st : State) (sid : Nat)
    (socket : Socket) (data : UbicacionData) (env : Entorno) (lat lng : Int)
    (user_id : String) (hreach : Reachable db st)
    (hopen : buscarSocket st sid = some socket)
    (hlat : data.lat = some lat) (hlat0 : lat ≠ 0)
    (hlng : data.lng = some lng) (hlng0 : lng ≠ 0)
    (huser : (data.userId = some user_id ∨
      ((data.userId = none ∨ data.userId = some "") ∧ socket.userId = some user_id)) ∧
      user_id ≠ "") :
    ∃ ts,
      (∀ t, data.timestamp = some t → t ≠ 0 → ts = t) ∧
      (data.timestamp = none ∨ data.timestamp = some 0 → ts = env.now) ∧
      (step st (.ubicacionActual sid data env)).1.ultimasUbicaciones.get user_id =
        some { lat := lat, lng := lng, speed := data.speed.getD 0, timestamp := ts } ∧
      (step st (.ubicacionActual sid data env)).2 =
        [{ destino := .broadcast sid, event := "ubicacion-usuario"
           data := .ubicacionUsuario user_id lat lng (data.speed.getD 0) ts }] ∧
      ∀ s ∈ st.sockets,
        entregas st.sockets (step st (.ubicacionActual sid data env)).2 s.id
          "ubicacion-usuario"
          (.ubicacionUsuario user_id lat lng (data.speed.getD 0) ts) =
        if s.id = sid then 0 else 1 := by
  have hnd := (reachable_inv db st hreach).nodup
  obtain ⟨_, hsid⟩ := buscarSocket_some st sid socket hopen
  have hlat2 : numOrNull data.lat = some lat := by
    rw [hlat]
    exact numOrNull_of_ne lat hlat0
  have hlng2 : numOrNull data.lng = some lng := by
    rw [hlng]
    exact numOrNull_of_ne lng hlng0
  have huser2 : resolverUserId data.userId socket = some user_id := by
    obtain ⟨hcases, hne⟩ := huser
    unfold resolverUserId
    rcases hcases with h | ⟨h, hs⟩
    · rw [h, strOrNull_of_ne user_id hne]
    · have hnone : strOrNull data.userId = none := by
        rcases h with h | h <;> rw [h] <;> rfl
      rw [hnone, hs]
      exact strOrNull_of_ne user_id hne
  have hok := onUbicacionActual_ok st socket data env lat lng user_id hlat2 hlng2 huser2
  rw [numOr_cero] at hok
  have hout : (step st (.ubicacionActual sid data env)).2 =
      [{ destino := .broadcast sid, event := "ubicacion-usuario"
         data := .ubicacionUsuario user_id lat lng (data.speed.getD 0)
           (timestampOr data.timestamp env.now) }] := by
    simp only [step, hopen, guardarSocket]
    rw [hok.1, hsid]
  refine ⟨timestampOr data.timestamp env.now, ?_, ?_, ?_, hout, ?_⟩
  · intro t ht h0
    simp [timestampOr, ht, h0]
  · intro h
    rcases h with h | h <;> simp [timestampOr, h]
  · simp only [step, hopen, guardarSocket]
    rw [hok.2]
    exact JsMap.get_set_self _ _ _
  · intro s hs
    rw [hout, entregas_uno, count_receptores st.sockets hnd _ s hs]
    by_cases h : s.id = sid <;> simp [Destino.alcanza, h]

theorem location_update_overwrites_and_broadcasts_witness :
    (buscarSocket Ejemplo.conUbicacion 1 = some Ejemplo.socket1A ∧
      Ejemplo.ubiRapida.lat = some 11 ∧ (11 : Int) ≠ 0 ∧
      Ejemplo.ubiRapida.lng = some 22 ∧ (22 : Int) ≠ 0 ∧
      ((Ejemplo.ubiRapida.userId = some "A" ∨
        ((Ejemplo.ubiRapida.userId = none ∨ Ejemplo.ubiRapida.userId = some "") ∧
          Ejemplo.socket1A.userId = some "A")) ∧ ("A" : String) ≠ "")) ∧
    ∃ ts,
      (∀ t, Ejemplo.ubiRapida.timestamp = some t → t ≠ 0 → ts = t) ∧
      (Ejemplo.ubiRapida.timestamp = none ∨ Ejemplo.ubiRapida.timestamp = some 0 →
        ts = Ejemplo.envFallaSave.now) ∧
      (step Ejemplo.conUbicacion (.ubicacionActual 1 Ejemplo.ubiRapida
          Ejemplo.envFallaSave)).1.ultimasUbicaciones.get "A" =
        some { lat := 11, lng := 22, speed := Ejemplo.ubiRapida.speed.getD 0
               timestamp := ts } ∧
      (step Ejemplo.conUbicacion
          (.ubicacionActual 1 Ejemplo.ubiRapida Ejemplo.envFallaSave)).2 =
        [{ destino := .broadcast 1, event := "ubicacion-usuario"
           data := .ubicacionUsuario "A" 11 22 (Ejemplo.ubiRapida.speed.getD 0) ts }] ∧
      ∀ s ∈ Ejemplo.conUbicacion.sockets,
        entregas Ejemplo.conUbicacion.sockets
          (step Ejemplo.conUbicacion
            (.ubicacionActual 1 Ejemplo.ubiRapida Ejemplo.envFallaSave)).2
          s.id "ubicacion-usuario"
          (.ubicacionUsuario "A" 11 22 (Ejemplo.ubiRapida.speed.getD 0) ts) =
        if s.id = 1 then 0 else 1 :=
  ⟨⟨by decide, rfl, by decide, rfl, by decide, Or.inr ⟨Or.inl rfl, rfl⟩, by decide⟩,
    location_update_overwrites_and_broadcasts Ejemplo.db0 Ejemplo.conUbicacion 1
      Ejemplo.socket1A Ejemplo.ubiRapida Ejemplo.envFallaSave 11 22 "A"
      (reachable_run Ejemplo.db0 _ _ (reachable_run Ejemplo.db0 _ _ Reachable.inicial))
      (by decide) rfl (by decide) rfl (by decide)
      ⟨Or.inr ⟨Or.inl rfl, rfl⟩, by decide⟩⟩

/-- C12, the code at the failing input. In the reachable state
`obsoletoConUbicacion` the registry binds "A" to a connection that is gone and
`ultimasUbicaciones` holds a sample of "A" put before. Connection 2 registers
as "A": the stale binding is replaced and the join is broadcast, but the old
sample of "A" is still in `ultimasUbicaciones` afterwards and the snapshot sent
in reply contains it. -/
theorem stale_register_keeps_cached_location :
    Reachable Ejemplo.db0 Ejemplo.obsoletoConUbicacion ∧
    Ejemplo.obsoletoConUbicacion.userSocketMap.get "A" = some 1 ∧
    buscarSocket Ejemplo.obsoletoConUbicacion 1 = none ∧
    Ejemplo.obsoletoConUbicacion.ultimasUbicaciones.get "A" =
      some { lat := 10, lng := 20, speed := 0, timestamp := 6 } ∧
    (step Ejemplo.obsoletoConUbicacion
      (.usuarioConectado 2 Ejemplo.regA (.sinErrores 9))).1.ultimasUbicaciones.get "A" =
      some { lat := 10, lng := 20, speed := 0, timestamp := 6 } ∧
    (step Ejemplo.obsoletoConUbicacion
      (.usuarioConectado 2 Ejemplo.regA (.sinErrores 9))).1.userSocketMap.get "A" = some 2 ∧
    { destino := .socket 2, event := "ubicaciones-usuarios-conectados"
      data := .ubicacionesUsuariosConectados
        [{ userId := "A", lat := 10, lng := 20, speed := 0, timestamp := 6 }] } ∈
      (step Ejemplo.obsoletoConUbicacion
        (.usuarioConectado 2 Ejemplo.regA (.sinErrores 9))).2 :=
  ⟨reachable_run Ejemplo.db0 _ _ Reachable.inicial, by decide, by decide, by decide,
    by decide, by decide, by decide⟩

/-- After a successful `registrarOActualizarUsuario` the row of the user in the
table carries the `num_usuario` of the returned object. -/
theorem registrar_num_guardado (db : Db) (ud : UserData) (now : Nat) (db2 : Db)
    (u : UsuarioResult) (h : registrarOActualizarUsuario db ud now none = .ok (db2, u)) :
    (selectUsuario db2 ud.id).map (fun r => r.num_usuario) = some u.row.num_usuario := by
  unfold registrarOActualizarUsuario at h
  simp only at h
  cases hsel : selectUsuario db ud.id with
  | some existe =>
    simp only [hsel, Except.ok.injEq, Prod.mk.injEq] at h
    obtain ⟨hdb, hu⟩ := h
    subst hdb hu
    unfold selectUsuario at hsel ⊢
    simp only [List.find?_map]
    have hcomp : ((fun r : UsuarioRow => decide (r.id = ud.id)) ∘ fun r : UsuarioRow =>
        if r.id = ud.id then
          { r with
            ultima_conexion := now
            nombre := coalesce (strOrNull ud.nombre) r.nombre
            plataforma := coalesce (strOrNull ud.plataforma) r.plataforma
            modelo_dispositivo := coalesce (strOrNull ud.modeloDispositivo) r.modelo_dispositivo }
        else r) = fun r : UsuarioRow => decide (r.id = ud.id) := by
      funext r
      simp only [Function.comp]
      split <;> rfl
    rw [hcomp, hsel]
    have hid : existe.id = ud.id := by simpa using List.find?_some hsel
    simp [hid]
  | none =>
    simp only [hsel, Except.ok.injEq, Prod.mk.injEq] at h
    obtain ⟨hdb, hu⟩ := h
    subst hdb hu
    unfold selectUsuario at hsel ⊢
    simp [List.find?_append, hsel]

theorem verificar_no_ligado (st : State) (id : String) (h : ligadoAbierto st id = false) :
    (verificarConexionAnterior st id).2 = false := by
  rcases verificar_cases st id with ⟨_, h2⟩ | ⟨a, hget, ⟨s, hs, hsa⟩, _⟩ | ⟨_, _, _, h2⟩
  · rw [h2]
  · have : ligadoAbierto st id = true :=
      (ligadoAbierto_iff st id).mpr ⟨a, hget, List.mem_map.mpr ⟨s, hs, hsa⟩⟩
    rw [h] at this
    cases this
  · rw [h2]

/-- C13 (fresh join). In a reachable state let the open connection `sid` send a
registration for `id` whose Store upsert succeeds, while `id` has no binding or
its bound connection is no longer open. Afterwards the registry binds `id` to
`sid`, `usuariosNotificados` marks `id`, and the handler has made exactly one
'cliente-conectado' emit call: it carries `userId = id`, the `num_usuario` of
the row of `id` in the Store, the request's name (null when absent) and platform
('web' when absent), and it is handed once to every open connection other than
`sid`, hence to every connection whose user differs from `id`, and not to `sid`
itself. -/
theorem fresh_join_registers_and_notifies (db : Db) (st : State) (sid : Nat)
    (socket : Socket) (data : RegistroData) (env : Entorno) (id : String)
    (hreach : Reachable db st) (hopen : buscarSocket st sid = some socket)
    (hid : strOrNull data.id = some id) (herr : env.errRegistrar = none)
    (hfresh : ligadoAbierto st id = false) :
    (step st (.usuarioConectado sid data env)).1.userSocketMap.get id = some sid ∧
    (step st (.usuarioConectado sid data env)).1.usuariosNotificados.get id = some true ∧
    ∃ num,
      (selectUsuario (step st (.usuarioConectado sid data env)).1.db id).map
        (fun r => r.num_usuario) = some num ∧
      (step st (.usuarioConectado sid data env)).2.filter
          (fun e => e.event = "cliente-conectado") =
        [{ destino := .broadcast sid, event := "cliente-conectado"
           data := .clienteConectado id (numOrNull num) (strOrNull data.nombre)
             (strOr data.plataforma "web") env.now }] ∧
      ∀ s ∈ st.sockets,
        entregas st.sockets (step st (.usuarioConectado sid data env)).2 s.id
          "cliente-conectado"
          (.clienteConectado id (numOrNull num) (strOrNull data.nombre)
            (strOr data.plataforma "web") env.now) =
        if s.id = sid then 0 else 1 := by
  have hnd := (reachable_inv db st hreach).nodup
  obtain ⟨_, hsid⟩ := buscarSocket_some st sid socket hopen
  obtain ⟨db2, u, hreg, _, hst, hout⟩ := onUsuarioConectado_ok st socket data env id hid herr
  have hya := verificar_no_ligado st id hfresh
  have hnum := registrar_num_guardado _ _ _ db2 u hreg
  refine ⟨?_, ?_, u.row.num_usuario, ?_, ?_, ?_⟩
  · simp only [step, hopen, guardarSocket]
    rw [hst, ← hsid]
    exact JsMap.get_set_self _ _ _
  · simp only [step, hopen, guardarSocket]
    rw [hst]
    simp only [hya, Bool.false_eq_true, ↓reduceIte]
    exact JsMap.get_set_self _ _ _
  · simp only [step, hopen, guardarSocket]
    rw [hst]
    exact hnum
  · simp only [step, hopen, guardarSocket]
    rw [hout, hsid]
    simp only [hya, Bool.false_eq_true, ↓reduceIte]
    cases getUsuarioById db2 id env.errGetUsuario with
    | error msg => simp
    | ok fila =>
      by_cases hz : st.ultimasUbicaciones.size > 0 <;> simp [hz]
  · intro s hs
    have hcount := count_receptores st.sockets hnd (.broadcast sid) s hs
    simp only [step, hopen, guardarSocket]
    rw [hout, hsid]
    simp only [hya, Bool.false_eq_true, ↓reduceIte]
    have hres : (if (Destino.broadcast sid).alcanza s.id = true then 1 else 0) =
        if s.id = sid then 0 else 1 := by
      by_cases h : s.id = sid <;> simp [Destino.alcanza, h]
    rw [hres] at hcount
    cases getUsuarioById db2 id env.errGetUsuario with
    | error msg => simpa [entregas] using hcount
    | ok fila =>
      by_cases hz : st.ultimasUbicaciones.size > 0 <;> simpa [entregas, hz] using hcount

theorem fresh_join_registers_and_notifies_witness :
    (buscarSocket Ejemplo.obsoletoConUbicacion 2 = some Ejemplo.socket2 ∧
      strOrNull Ejemplo.regA.id = some "A" ∧ (Entorno.sinErrores 9).errRegistrar = none ∧
      ligadoAbierto Ejemplo.obsoletoConUbicacion "A" = false) ∧
    ((step Ejemplo.obsoletoConUbicacion
        (.usuarioConectado 2 Ejemplo.regA (.sinErrores 9))).1.userSocketMap.get "A" = some 2 ∧
    (step Ejemplo.obsoletoConUbicacion
        (.usuarioConectado 2 Ejemplo.regA (.sinErrores 9))).1.usuariosNotificados.get "A" =
      some true ∧
    ∃ num,
      (selectUsuario (step Ejemplo.obsoletoConUbicacion
          (.usuarioConectado 2 Ejemplo.regA (.sinErrores 9))).1.db "A").map
        (fun r => r.num_usuario) = some num ∧
      (step Ejemplo.obsoletoConUbicacion
          (.usuarioConectado 2 Ejemplo.regA (.sinErrores 9))).2.filter
          (fun e => e.event = "cliente-conectado") =
        [{ destino := .broadcast 2, event := "cliente-conectado"
           data := .clienteConectado "A" (numOrNull num) (strOrNull Ejemplo.regA.nombre)
             (strOr Ejemplo.regA.plataforma "web") (Entorno.sinErrores 9).now }] ∧
      ∀ s ∈ Ejemplo.obsoletoConUbicacion.sockets,
        entregas Ejemplo.obsoletoConUbicacion.sockets
          (step Ejemplo.obsoletoConUbicacion
            (.usuarioConectado 2 Ejemplo.regA (.sinErrores 9))).2 s.id
          "cliente-conectado"
          (.clienteConectado "A" (numOrNull num) (strOrNull Ejemplo.regA.nombre)
            (strOr Ejemplo.regA.plataforma "web") (Entorno.sinErrores 9).now) =
        if s.id = 2 then 0 else 1) :=
  ⟨⟨by decide, by decide, rfl, by decide⟩,
    fresh_join_registers_and_notifies Ejemplo.db0 Ejemplo.obsoletoConUbicacion 2
      Ejemplo.socket2 Ejemplo.regA (.sinErrores 9) "A"
      (reachable_run Ejemplo.db0 _ _ Reachable.inicial) (by decide) (by decide) rfl
      (by decide)⟩

/-- C14. In a reachable state, `emitToOthers` with an absent excluded user id
(null, undefined or the empty string) resolves with the single call `io.emit`,
which hands the event once to every open connection, whether it is bound to a
user or not. -/
theorem emitToOthers_without_user_reaches_all (db : Db) (st : State)
    (userId : Option String) (event : String) (data : Payload) (hreach : Reachable db st)
    (habs : strOrNull userId = none) :
    emitToOthers st userId event data =
      .ok [{ destino := .todos, event := event, data := data }] ∧
    receptores st.sockets .todos = st.sockets.map (fun s => s.id) ∧
    ∀ s ∈ st.sockets,
      entregas st.sockets [{ destino := .todos, event := event, data := data }] s.id
        event data = 1 := by
  have hnd := (reachable_inv db st hreach).nodup
  refine ⟨by simp only [emitToOthers, habs, ioEmit], ?_, ?_⟩
  · simp [receptores, Destino.alcanza]
  · intro s hs
    rw [entregas_uno, count_receptores st.sockets hnd _ s hs]
    simp [Destino.alcanza]

theorem emitToOthers_without_user_reaches_all_witness :
    strOrNull (some "") = none ∧
    (emitToOthers Ejemplo.dosSocketsA (some "") "marcador:creado" (.otro "m1") =
      .ok [{ destino := .todos, event := "marcador:creado", data := .otro "m1" }] ∧
    receptores Ejemplo.dosSocketsA.sockets .todos =
      Ejemplo.dosSocketsA.sockets.map (fun s => s.id) ∧
    ∀ s ∈ Ejemplo.dosSocketsA.sockets,
      entregas Ejemplo.dosSocketsA.sockets
        [{ destino := .todos, event := "marcador:creado", data := .otro "m1" }] s.id
        "marcador:creado" (.otro "m1") = 1) :=
  ⟨by decide,
    emitToOthers_without_user_reaches_all Ejemplo.db0 Ejemplo.dosSocketsA (some "")
      "marcador:creado" (.otro "m1") (reachable_run Ejemplo.db0 _ _ Reachable.inicial)
      (by decide)⟩

theorem verificar_notificados_ne (st : State) (id k : String) (hne : k ≠ id) :
    (verificarConexionAnterior st id).1.usuariosNotificados.get k =
      st.usuariosNotificados.get k := by
  rcases verificar_cases st id with ⟨_, h⟩ | ⟨_, _, _, h⟩ | ⟨_, _, _, h⟩
  · rw [h]
  · rw [h]
  · rw [h]
    exact JsMap.get_delete_ne _ _ _ hne

/-- C15 (frame). Let `k` be a user other than `id`. Handling a registration for
`id`, whether the Store call succeeds or throws and whatever the reconnection
check finds, and running the disconnect handler of a socket whose
`socket.userId` is `id`, whether it tears `id` down or is skipped by the race
guard, both leave the registry binding, the notified flag and the cached
location of `k` as they were. -/
theorem other_users_untouched (id k : String) (hne : k ≠ id) :
    (∀ (st : State) (socket : Socket) (data : RegistroData) (env : Entorno),
      strOrNull data.id = some id →
      (onUsuarioConectado st socket data env).st.userSocketMap.get k =
        st.userSocketMap.get k ∧
      (onUsuarioConectado st socket data env).st.usuariosNotificados.get k =
        st.usuariosNotificados.get k ∧
      (onUsuarioConectado st socket data env).st.ultimasUbicaciones.get k =
        st.ultimasUbicaciones.get k) ∧
    (∀ (st : State) (socket : Socket) (now : Nat), socket.userId = some id →
      (onDisconnect st socket now).st.userSocketMap.get k = st.userSocketMap.get k ∧
      (onDisconnect st socket now).st.usuariosNotificados.get k =
        st.usuariosNotificados.get k ∧
      (onDisconnect st socket now).st.ultimasUbicaciones.get k =
        st.ultimasUbicaciones.get k) := by
  constructor
  · intro st socket data env hid
    have hf := verificar_frame st id
    cases herr : env.errRegistrar with
    | some msg =>
      rw [onUsuarioConectado_falla st socket data env id msg hid herr]
      exact ⟨verificar_get_ne st id k hne, verificar_notificados_ne st id k hne,
        by rw [hf.2.2.1]⟩
    | none =>
      obtain ⟨db2, u, _, _, hst, _⟩ := onUsuarioConectado_ok st socket data env id hid herr
      rw [hst]
      refine ⟨?_, ?_, by rw [hf.2.2.1]⟩
      · simp only
        rw [JsMap.get_set_ne _ _ _ _ hne]
        exact verificar_get_ne st id k hne
      · simp only
        split
        · exact verificar_notificados_ne st id k hne
        · rw [JsMap.get_set_ne _ _ _ _ hne]
          exact verificar_notificados_ne st id k hne
  · intro st socket now hid
    by_cases hc : ∀ u, strOrNull socket.userId = some u →
        st.userSocketMap.get u ≠ some socket.id
    · rw [onDisconnect_noop st socket now hc]
      exact ⟨rfl, rfl, rfl⟩
    · push_neg at hc
      obtain ⟨u, hu, hb⟩ := hc
      have hu2 := (strOrNull_some_eq _ _ hu).1
      rw [hid] at hu2
      have hidu : id = u := Option.some.inj hu2
      subst hidu
      rw [(onDisconnect_vigente st socket now id hu hb).1]
      exact ⟨JsMap.get_delete_ne _ _ _ hne, JsMap.get_delete_ne _ _ _ hne,
        JsMap.get_delete_ne _ _ _ hne⟩

theorem other_users_untouched_witness :
    ("B" : String) ≠ "A" ∧
    ((∀ (st : State) (socket : Socket) (data : RegistroData) (env : Entorno),
      strOrNull data.id = some "A" →
      (onUsuarioConectado st socket data env).st.userSocketMap.get "B" =
        st.userSocketMap.get "B" ∧
      (onUsuarioConectado st socket data env).st.usuariosNotificados.get "B" =
        st.usuariosNotificados.get "B" ∧
      (onUsuarioConectado st socket data env).st.ultimasUbicaciones.get "B" =
        st.ultimasUbicaciones.get "B") ∧
    (∀ (st : State) (socket : Socket) (now : Nat), socket.userId = some "A" →
      (onDisconnect st socket now).st.userSocketMap.get "B" = st.userSocketMap.get "B" ∧
      (onDisconnect st socket now).st.usuariosNotificados.get "B" =
        st.usuariosNotificados.get "B" ∧
      (onDisconnect st socket now).st.ultimasUbicaciones.get "B" =
        st.ultimasUbicaciones.get "B")) :=
  ⟨by decide, other_users_untouched "A" "B" (by decide)⟩

/-- C16. A gps-sample or a location-update whose lat or lng is absent or 0 is
dropped: whatever the Store would answer, the handler returns the state (maps
and database) and the socket as they were and makes no emit call. The same
holds for a location-update with lat and lng whose user id resolves neither from
the payload nor from the connection. -/
theorem invalid_location_messages_are_dropped (st : State) (socket : Socket)
    (env : Entorno) :
    (∀ data : CoordenadaMsg, numOrNull data.lat = none ∨ numOrNull data.lng = none →
      onCoordenadaActualizar st socket data env = { st := st, socket := socket, out := [] }) ∧
    (∀ data : UbicacionData, numOrNull data.lat = none ∨ numOrNull data.lng = none →
      onUbicacionActual st socket data env = { st := st, socket := socket, out := [] }) ∧
    (∀ data : UbicacionData, resolverUserId data.userId socket = none →
      onUbicacionActual st socket data env = { st := st, socket := socket, out := [] }) := by
  refine ⟨?_, ?_, ?_⟩
  · intro data h
    unfold onCoordenadaActualizar
    rcases h with h | h
    · simp [h]
    · cases hl : numOrNull data.lat <;> simp [h]
  · intro data h
    unfold onUbicacionActual
    rcases h with h | h
    · simp [h]
    · cases hl : numOrNull data.lat <;> simp [h]
  · intro data h
    unfold onUbicacionActual
    cases hl : numOrNull data.lat with
    | none => simp
    | some lat =>
      cases hg : numOrNull data.lng with
      | none => simp
      | some lng => simp [h]

theorem invalid_location_messages_are_dropped_witness :
    onCoordenadaActualizar Ejemplo.dosSocketsA Ejemplo.socket1A
        { lat := some 0, lng := some 20, accuracy := none, userId := none }
        Ejemplo.envFallaSave =
      { st := Ejemplo.dosSocketsA, socket := Ejemplo.socket1A, out := [] } ∧
    onUbicacionActual Ejemplo.dosSocketsA Ejemplo.socket1A
        { userId := none, lat := some 10, lng := none, speed := none, accuracy := none
          timestamp := none } Ejemplo.envFallaSave =
      { st := Ejemplo.dosSocketsA, socket := Ejemplo.socket1A, out := [] } ∧
    onUbicacionActual Ejemplo.unaConexion Ejemplo.socket1 Ejemplo.ubi Ejemplo.envFallaSave =
      { st := Ejemplo.unaConexion, socket := Ejemplo.socket1, out := [] } :=
  ⟨(invalid_location_messages_are_dropped Ejemplo.dosSocketsA Ejemplo.socket1A
      Ejemplo.envFallaSave).1 _ (Or.inl (by decide)),
    (invalid_location_messages_are_dropped Ejemplo.dosSocketsA Ejemplo.socket1A
      Ejemplo.envFallaSave).2.1 _ (Or.inr (by decide)),
    (invalid_location_messages_are_dropped Ejemplo.unaConexion Ejemplo.socket1
      Ejemplo.envFallaSave).2.2 _ (by decide)⟩

theorem foldl_max_spec (l : List Int) (acc : Option Int) :
    (acc = none ∧ l = [] ∧
      l.foldl (fun acc n => match acc with
        | none => some n
        | some a => some (max a n)) acc = none) ∨
    ∃ m, l.foldl (fun acc n => match acc with
        | none => some n
        | some a => some (max a n)) acc = some m ∧
      (acc = some m ∨ m ∈ l) ∧ (∀ a, acc = some a → a ≤ m) ∧ ∀ n ∈ l, n ≤ m := by
  induction l generalizing acc with
  | nil =>
    cases acc with
    | none => exact Or.inl ⟨rfl, rfl, rfl⟩
    | some a =>
      right
      refine ⟨a, rfl, Or.inl rfl, ?_, ?_⟩
      · intro b hb
        cases hb
        exact le_refl _
      · intro n hn
        cases hn
  | cons x rest ih =>
    right
    simp only [List.foldl_cons]
    cases acc with
    | none =>
      rcases ih (some x) with ⟨h, _⟩ | ⟨m, hm, hin, hacc, hrest⟩
      · cases h
      · refine ⟨m, hm, Or.inr ?_, ?_, ?_⟩
        · rcases hin with h | h
          · cases h
            exact List.mem_cons_self _ _
          · exact List.mem_cons_of_mem _ h
        · intro a ha
          cases ha
        · intro n hn
          rcases List.mem_cons.mp hn with h | h
          · subst h
            exact hacc n rfl
          · exact hrest n h
    | some a =>
      rcases ih (some (max a x)) with ⟨h, _⟩ | ⟨m, hm, hin, hacc, hrest⟩
      · cases h
      · have hmax := hacc (max a x) rfl
        refine ⟨m, hm, ?_, ?_, ?_⟩
        · rcases hin with h | h
          · have h2 : max a x = m := Option.some.inj h
            rcases max_choice a x with h3 | h3
            · left
              rw [← h2, h3]
            · right
              rw [← h2, h3]
              exact List.mem_cons_self _ _
          · exact Or.inr (List.mem_cons_of_mem _ h)
        · intro b hb
          cases hb
          exact le_trans (le_max_left _ _) hmax
        · intro n hn
          rcases List.mem_cons.mp hn with h | h
          · subst h
            exact le_trans (le_max_right _ _) hmax
          · exact hrest n h

/-- The query `MAX(num_usuario)` returns NULL on a table without numbers and the
greatest number otherwise. -/
theorem maxNumUsuario_spec (db : Db) :
    (db.usuarios.filterMap (fun r => r.num_usuario) = [] ∧ maxNumUsuario db = none) ∨
    ∃ m, maxNumUsuario db = some m ∧ m ∈ db.usuarios.filterMap (fun r => r.num_usuario) ∧
      ∀ n ∈ db.usuarios.filterMap (fun r => r.num_usuario), n ≤ m := by
  unfold maxNumUsuario
  rcases foldl_max_spec (db.usuarios.filterMap (fun r => r.num_usuario)) none with
    ⟨_, h2, h3⟩ | ⟨m, hm, hin, _, hrest⟩
  · exact Or.inl ⟨h2, h3⟩
  · right
    refine ⟨m, hm, ?_, hrest⟩
    rcases hin with h | h
    · cases h
    · exact h

theorem redondearDoble_exacto (a : Nat) (h : a < 2 ^ 53) : redondearDoble a = a := by
  have he : bitsPerdidos 1024 a = 0 := by
    show (if a < 2 ^ 53 then 0 else bitsPerdidos 1023 (a / 2) + 1) = 0
    rw [if_pos h]
  unfold redondearDoble
  simp [he, Nat.mod_one]

/-- The JavaScript addition is exact while the sum stays below 2^53 in
magnitude. -/
theorem jsSuma_exacta (a b : Int) (h : (a + b).natAbs < 2 ^ 53) : jsSuma a b = a + b := by
  unfold jsSuma aDoble
  by_cases hpos : 0 ≤ a + b
  · rw [if_pos hpos, redondearDoble_exacto _ (by omega)]
    omega
  · rw [if_neg hpos, redondearDoble_exacto _ (by omega)]
    omega

/-- The number `registrarOActualizarUsuario` gives to a new user:
`result.max_num ? result.max_num + 1 : 1` is the JavaScript sum of the maximum
and one, also when the maximum is 0. -/
theorem nextNum_eq (mx : Option Int) :
    (match numOrNull mx with
      | some m => jsSuma m 1
      | none => (1 : Int)) =
    match mx with
      | some m => jsSuma m 1
      | none => 1 := by
  cases mx with
  | none => rfl
  | some m =>
    by_cases h : m = 0
    · subst h
      decide
    · simp [numOrNull, h]

/-- C17, the code at the failing input. The table holds one user, with number
2^53 = 9007199254740992. The numbers are pairwise distinct, the id "P" is new,
and `registrarOActualizarUsuario` returns and stores for "P" the number 2^53
again, because `result.max_num + 1` is computed on doubles: afterwards two users
carry the same number. -/
theorem sequence_number_repeats_at_two_pow_53 :
    (Ejemplo.dbGrande.usuarios.filterMap (fun r => r.num_usuario)).Nodup ∧
    selectUsuario Ejemplo.dbGrande "P" = none ∧
    maxNumUsuario Ejemplo.dbGrande = some 9007199254740992 ∧
    jsSuma 9007199254740992 1 = 9007199254740992 ∧
    ∃ db2 u,
      registrarOActualizarUsuario Ejemplo.dbGrande
        { id := "P", nombre := none, plataforma := some "web", modeloDispositivo := none }
        9 none = .ok (db2, u) ∧
      u.row.num_usuario = some 9007199254740992 ∧
      db2.usuarios.filterMap (fun r => r.num_usuario) =
        [9007199254740992, 9007199254740992] ∧
      ¬ (db2.usuarios.filterMap (fun r => r.num_usuario)).Nodup := by
  refine ⟨by decide, by decide, by decide, by decide, _, _, rfl, by decide, by decide,
    by decide⟩

/-- Below the range where doubles skip integers the numbers stay unique. If the
non-null `num_usuario` values of the stored users are pairwise distinct and each
is below 2^53 - 1 in magnitude, a call of `registrarOActualizarUsuario` that does
not throw returns and leaves them pairwise distinct. When the id is new, the
returned and stored row carries 1 if no stored user has a number and the
greatest stored number plus 1 otherwise; when the id already exists, its stored
row keeps its `num_usuario`. -/
theorem sequence_numbers_stay_unique_in_exact_range (db : Db) (ud : UserData) (now : Nat)
    (hdist : (db.usuarios.filterMap (fun r => r.num_usuario)).Nodup)
    (hcota : ∀ n ∈ db.usuarios.filterMap (fun r => r.num_usuario),
      n.natAbs < 2 ^ 53 - 1) :
    ∃ db2 u, registrarOActualizarUsuario db ud now none = .ok (db2, u) ∧
      (db2.usuarios.filterMap (fun r => r.num_usuario)).Nodup ∧
      (selectUsuario db2 ud.id).map (fun r => r.num_usuario) = some u.row.num_usuario ∧
      (selectUsuario db ud.id = none →
        (db.usuarios.filterMap (fun r => r.num_usuario) = [] →
          u.row.num_usuario = some 1) ∧
        (∀ m, m ∈ db.usuarios.filterMap (fun r => r.num_usuario) →
          (∀ n ∈ db.usuarios.filterMap (fun r => r.num_usuario), n ≤ m) →
          u.row.num_usuario = some (m + 1))) ∧
      (∀ existe, selectUsuario db ud.id = some existe →
        u.row.num_usuario = existe.num_usuario) := by
  obtain ⟨db2, u, hreg⟩ := registrar_sin_error db ud now
  have hnum := registrar_num_guardado db ud now db2 u hreg
  have hsuma : ∀ m ∈ db.usuarios.filterMap (fun r => r.num_usuario),
      jsSuma m 1 = m + 1 := by
    intro m hm
    have := hcota m hm
    exact jsSuma_exacta m 1 (by omega)
  refine ⟨db2, u, hreg, ?_, hnum, ?_, ?_⟩
  · unfold registrarOActualizarUsuario at hreg
    simp only at hreg
    cases hsel : selectUsuario db ud.id with
    | some existe =>
      simp only [hsel, Except.ok.injEq, Prod.mk.injEq] at hreg
      obtain ⟨hdb, _⟩ := hreg
      subst hdb
      simp only [List.filterMap_map]
      have hcomp : ((fun r : UsuarioRow => r.num_usuario) ∘ fun r : UsuarioRow =>
          if r.id = ud.id then
            { r with
              ultima_conexion := now
              nombre := coalesce (strOrNull ud.nombre) r.nombre
              plataforma := coalesce (strOrNull ud.plataforma) r.plataforma
              modelo_dispositivo :=
                coalesce (strOrNull ud.modeloDispositivo) r.modelo_dispositivo }
          else r) = fun r : UsuarioRow => r.num_usuario := by
        funext r
        simp only [Function.comp]
        split <;> rfl
      rw [hcomp]
      exact hdist
    | none =>
      simp only [hsel, Except.ok.injEq, Prod.mk.injEq] at hreg
      obtain ⟨hdb, _⟩ := hreg
      subst hdb
      simp only [List.filterMap_append, List.filterMap_cons, List.filterMap_nil]
      rw [List.nodup_append]
      refine ⟨hdist, List.nodup_singleton _, ?_⟩
      intro a ha hb
      simp only [List.mem_singleton] at hb
      rw [nextNum_eq] at hb
      rcases maxNumUsuario_spec db with ⟨hnil, _⟩ | ⟨m, hm, hin, hle⟩
      · rw [hnil] at ha
        cases ha
      · rw [hm] at hb
        have := hle a ha
        simp only at hb
        rw [hsuma m hin] at hb
        omega
  · intro hsel
    unfold registrarOActualizarUsuario at hreg
    simp only [hsel, Except.ok.injEq, Prod.mk.injEq] at hreg
    obtain ⟨_, hu⟩ := hreg
    subst hu
    simp only [nextNum_eq]
    constructor
    · intro hnil
      rcases maxNumUsuario_spec db with ⟨_, hmax⟩ | ⟨m, _, hin, _⟩
      · rw [hmax]
      · rw [hnil] at hin
        cases hin
    · intro m hin hle
      rcases maxNumUsuario_spec db with ⟨hnil, _⟩ | ⟨m2, hmax, hin2, hle2⟩
      · rw [hnil] at hin
        cases hin
      · rw [hmax]
        have h1 := hle m2 hin2
        have h2 := hle2 m hin
        have : m2 = m := le_antisymm h1 h2
        rw [this]
        simp only
        rw [hsuma m hin]
  · intro existe hsel
    unfold registrarOActualizarUsuario at hreg
    simp only [hsel, Except.ok.injEq, Prod.mk.injEq] at hreg
    obtain ⟨_, hu⟩ := hreg
    subst hu
    rfl

theorem sequence_numbers_stay_unique_in_exact_range_witness :
    ((Ejemplo.dbDos.usuarios.filterMap (fun r => r.num_usuario)).Nodup ∧
      ∀ n ∈ Ejemplo.dbDos.usuarios.filterMap (fun r => r.num_usuario),
        n.natAbs < 2 ^ 53 - 1) ∧
    ∃ db2 u,
      registrarOActualizarUsuario Ejemplo.dbDos
        { id := "C", nombre := none, plataforma := some "web", modeloDispositivo := none }
        9 none = .ok (db2, u) ∧
      (db2.usuarios.filterMap (fun r => r.num_usuario)).Nodup ∧
      (selectUsuario db2 "C").map (fun r => r.num_usuario) = some u.row.num_usuario ∧
      (selectUsuario Ejemplo.dbDos "C" = none →
        (Ejemplo.dbDos.usuarios.filterMap (fun r => r.num_usuario) = [] →
          u.row.num_usuario = some 1) ∧
        (∀ m, m ∈ Ejemplo.dbDos.usuarios.filterMap (fun r => r.num_usuario) →
          (∀ n ∈ Ejemplo.dbDos.usuarios.filterMap (fun r => r.num_usuario), n ≤ m) →
          u.row.num_usuario = some (m + 1))) ∧
      (∀ existe, selectUsuario Ejemplo.dbDos "C" = some existe →
        u.row.num_usuario = existe.num_usuario) :=
  ⟨⟨by decide, by decide⟩,
    sequence_numbers_stay_unique_in_exact_range Ejemplo.dbDos
      { id := "C", nombre := none, plataforma := some "web", modeloDispositivo := none }
      9 (by decide) (by decide)⟩

theorem splitChars_ne_nil (sep : Char) (l : List Char) : splitChars sep l ≠ [] := by
  cases l with
  | nil => simp [splitChars]
  | cons c cs =>
    unfold splitChars
    split
    · simp
    · split <;> simp

theorem splitChars_sin_sep (sep : Char) (l : List Char) (h : sep ∉ l) :
    splitChars sep l = [l] := by
  induction l with
  | nil => rfl
  | cons c cs ih =>
    have hc : c ≠ sep := fun hc => h (hc ▸ List.mem_cons_self _ _)
    have hcs : sep ∉ cs := fun hm => h (List.mem_cons_of_mem _ hm)
    simp only [splitChars, hc, ↓reduceIte, ih hcs]

theorem splitChars_append_sep (sep : Char) (l r : List Char) :
    splitChars sep (l ++ sep :: r) = splitChars sep l ++ splitChars sep r := by
  induction l with
  | nil => simp [splitChars]
  | cons c cs ih =>
    have hstep : (c :: cs) ++ sep :: r = c :: (cs ++ sep :: r) := rfl
    rw [hstep]
    by_cases hc : c = sep
    · simp only [splitChars, hc, ↓reduceIte, ih, List.cons_append, List.nil_append]
    · simp only [splitChars, hc, ↓reduceIte, ih]
      cases hs : splitChars sep cs with
      | nil => exact absurd hs (splitChars_ne_nil sep cs)
      | cons p ps => rfl

/-- The parts of a URL built by `getFileUrl`. -/
theorem jsSplit_url (filename folder : String) (h1 : '/' ∉ filename.data)
    (h2 : '/' ∉ folder.data) :
    jsSplit ("/api/files/" ++ folder ++ "/" ++ filename) '/' =
      ["", "api", "files", folder, filename] := by
  have hdata : ("/api/files/" ++ folder ++ "/" ++ filename).data =
      ("/api/files".data ++ '/' :: folder.data) ++ '/' :: filename.data := by
    simp only [String.data_append]
    simp
  unfold jsSplit
  rw [hdata, splitChars_append_sep, splitChars_append_sep,
    splitChars_sin_sep _ _ h1, splitChars_sin_sep _ _ h2]
  have hpre : splitChars '/' "/api/files".data = ["".data, "api".data, "files".data] := by
    decide
  rw [hpre]
  rfl

/-- C18 (URL round trip). For every non-empty file name and every folder name
without '/' (the folder name may even be empty), `getFileUrl` returns a URL, and splitting that URL on '/' and reading the
last and the second-to-last part, as the marker update and delete routes do
before they call `deleteFile`, gives back exactly the file name and the folder.
For a missing or empty file name `getFileUrl` returns null. -/
theorem file_url_round_trip (filename folder : String) (hfile : filename ≠ "")
    (h1 : '/' ∉ filename.data) (h2 : '/' ∉ folder.data) :
    (∃ url, getFileUrl (some filename) (some folder) = some url ∧
      archivoPartes url = (some filename, some folder)) ∧
    (∀ fo, getFileUrl none fo = none ∧ getFileUrl (some "") fo = none) := by
  constructor
  · refine ⟨"/api/files/" ++ folder ++ "/" ++ filename, ?_, ?_⟩
    · simp [getFileUrl, strOrNull_of_ne filename hfile]
    · unfold archivoPartes
      simp only [jsSplit_url filename folder h1 h2]
      rfl
  · intro fo
    exact ⟨rfl, rfl⟩

theorem file_url_round_trip_witness :
    (("17-5.png" : String) ≠ "" ∧
      '/' ∉ ("17-5.png" : String).data ∧ '/' ∉ ("imagenes" : String).data) ∧
    ((∃ url, getFileUrl (some "17-5.png") (some "imagenes") = some url ∧
      archivoPartes url = (some "17-5.png", some "imagenes")) ∧
    (∀ fo, getFileUrl none fo = none ∧ getFileUrl (some "") fo = none)) :=
  ⟨⟨by decide, by decide, by decide⟩,
    file_url_round_trip "17-5.png" "imagenes" (by decide) (by decide) (by decide)⟩

/-- C19. For every MIME type string, `getFileFolder` of `server.js` returns the
folder the multer storage `destination` of `fileUpload.js` chooses: 'imagenes'
for image/*, 'videos' for video/*, 'documentos' otherwise. Hence the URL that
`getFileUrl` builds from `getFileFolder` names the folder the file was written
to. -/
theorem getFileFolder_matches_storage_destination (mimeType : String) :
    getFileFolder (some mimeType) = storageDestinationFolder mimeType ∧
    getFileFolder (some mimeType) =
      (if jsStartsWith mimeType "image/" then "imagenes"
       else if jsStartsWith mimeType "video/" then "videos" else "documentos") ∧
    ∀ filename, getFileUrl filename (some (getFileFolder (some mimeType))) =
      getFileUrl filename (some (storageDestinationFolder mimeType)) := by
  have h : getFileFolder (some mimeType) = storageDestinationFolder mimeType := by
    unfold getFileFolder storageDestinationFolder
    simp only [Option.map_some', Option.getD_some]
    split
    · rfl
    · split
      · rfl
      · split <;> rfl
  refine ⟨h, ?_, ?_⟩
  · unfold getFileFolder
    simp only [Option.map_some', Option.getD_some]
  · intro filename
    rw [h]

/-- A run of the registration handler that nothing interleaves with is its first
part followed at once by its resumption. -/
theorem onUsuarioConectado_por_fases (st : State) (socket : Socket) (data : RegistroData)
    (env : Entorno) :
    onUsuarioConectado st socket data env =
      match iniciarRegistro st socket data env with
      | .terminado r => r
      | .suspendido p => reanudarRegistro st socket p env := by
  unfold onUsuarioConectado iniciarRegistro
  cases hid : strOrNull data.id with
  | none => rfl
  | some id =>
    simp only
    cases hget : st.userSocketMap.get id with
    | none =>
      have hv : verificarConexionAnterior st id = (st, false) := by
        simp [verificarConexionAnterior, hget]
      simp only [hv, completarRegistro]
    | some a =>
      simp only [reanudarRegistro, fetchSockets]
      cases hfind : st.sockets.find? (fun s => s.id = a) with
      | some s =>
        have hv : verificarConexionAnterior st id = (st, true) := by
          simp [verificarConexionAnterior, hget, fetchSockets, hfind]
        simp only [hv, completarRegistro]
      | none =>
        have hv : verificarConexionAnterior st id =
            ({ st with
                userSocketMap := st.userSocketMap.delete id
                usuariosNotificados := st.usuariosNotificados.delete id }, false) := by
          simp [verificarConexionAnterior, hget, fetchSockets, hfind]
        simp only [hv, completarRegistro]

/-- C3, the code at the failing input. In the reachable state
`obsoletoDosAbiertos` the registry binds "A" to connection 1, which is closed,
and connections 2 and 3 are open. Connection 2 sends 'usuario-conectado' for "A"
twice back to back: each run reads the stale binding and suspends at
`await io.fetchSockets()` before the other resumes. Resumed one after the
other, both find connection 1 gone and both broadcast 'cliente-conectado' for
"A": connection 3 is handed two joins although no connection closed in between.
When the first run completes before the second starts, only one join is
emitted. -/
theorem back_to_back_registrations_join_twice :
    Reachable Ejemplo.db0 Ejemplo.obsoletoDosAbiertos ∧
    Ejemplo.obsoletoDosAbiertos.userSocketMap.get "A" = some 1 ∧
    buscarSocket Ejemplo.obsoletoDosAbiertos 1 = none ∧
    buscarSocket Ejemplo.obsoletoDosAbiertos 2 = some Ejemplo.socket2 ∧
    (buscarSocket Ejemplo.obsoletoDosAbiertos 3).isSome = true ∧
    iniciarRegistro Ejemplo.obsoletoDosAbiertos Ejemplo.socket2 Ejemplo.regA
      (.sinErrores 9) = .suspendido Ejemplo.suspendidoA ∧
    Ejemplo.primeraReanudacion.out.filter (esJoinDe "A") =
      [{ destino := .broadcast 2, event := "cliente-conectado"
         data := .clienteConectado "A" (some 1) none "web" 9 }] ∧
    Ejemplo.segundaReanudacion.out.filter (esJoinDe "A") =
      [{ destino := .broadcast 2, event := "cliente-conectado"
         data := .clienteConectado "A" (some 1) none "web" 9 }] ∧
    entregas Ejemplo.obsoletoDosAbiertos.sockets
      (Ejemplo.primeraReanudacion.out ++ Ejemplo.segundaReanudacion.out) 3
      "cliente-conectado" (.clienteConectado "A" (some 1) none "web" 9) = 2 ∧
    ((run Ejemplo.obsoletoDosAbiertos
        [.usuarioConectado 2 Ejemplo.regA (.sinErrores 9),
         .usuarioConectado 2 Ejemplo.regA (.sinErrores 9)]).2.filter
      (esJoinDe "A")).length = 1 :=
  ⟨reachable_run Ejemplo.db0 _ _ (reachable_run Ejemplo.db0 _ _ Reachable.inicial),
    by decide, by decide, by decide, by decide, by decide, by decide, by decide, by decide,
    by decide⟩

end Map1Server
